import Mathlib

/-!
# Frontend settings assembly (`pkg/api/frontendsettings.go`)

A shallow embedding of `getFrontendSettingsMap`, `getPanelSort` and the data they
read and build, followed by theorems about the assembled settings document.

Go's `map[string]interface{}` is an unordered finite map. It is embedded as an
association list kept in strictly ascending key order, so that two Go maps with the
same entries are the same Lean value whatever the order of the writes.
-/

namespace FrontendSettings

/-! ## Go maps with string keys -/

/-- Lexicographic "strictly below" on lists of character codes. -/
def codesLt : List Nat → List Nat → Bool
  | _, [] => false
  | [], _ :: _ => true
  | a :: as, b :: bs => decide (a < b) || (decide (a = b) && codesLt as bs)

/-- The key order used to keep map entries in one canonical order. -/
def keyLt (a b : String) : Bool :=
  codesLt (a.data.map Char.toNat) (b.data.map Char.toNat)

/-- Go map with string keys: association list in ascending key order. -/
abbrev GoMap (α : Type) := List (String × α)

/-- Go `m[k] = v`: write `v` under `k`, replacing an entry already stored under `k`. -/
def mapSet {α : Type} : GoMap α → String → α → GoMap α
  | [], k, v => [(k, v)]
  | (k', v') :: rest, k, v =>
    if k = k' then (k, v) :: rest
    else if keyLt k k' then (k, v) :: (k', v') :: rest
    else (k', v') :: mapSet rest k v

/-- Go `v, ok := m[k]`: the value stored under `k`, if any. -/
def mapGet {α : Type} : GoMap α → String → Option α
  | [], _ => none
  | (k', v') :: rest, k => if k = k' then some v' else mapGet rest k

/-- Keys of a Go map. -/
def mapKeys {α : Type} (m : GoMap α) : List String := m.map Prod.fst

/-- Go map literal: the listed writes applied to an empty map. -/
def mapLit {α : Type} (kvs : List (String × α)) : GoMap α :=
  kvs.foldl (fun m kv => mapSet m kv.1 kv.2) []

/-! ## Data model -/

/-- Modelled from the spec: the `simplejson.Json` type declaration is not part of the
sources. The assembler only tests the pointer for nil and passes the document through,
so a JSON document is represented by its top-level fields with text-encoded values. -/
structure Json where
  fields : List (String × String)
  deriving DecidableEq, Repr

/-- Modelled from the spec: the `m.DataSource` type declaration (package `models`) is
not part of the sources: "identifier, organization id, name, type tag, access mode, base
URL, default flag, basic-auth flag + credentials, with-credentials flag, arbitrary
JSON-valued extension data, and type-specific fields (username, password, database
name)". `Id` and `OrgId` are Go `int64`; `JsonData` is a pointer, `none` for nil; the
Go field `Type` is written `Type_`. -/
structure DataSource where
  Id : Int
  OrgId : Int
  Name : String
  Type_ : String
  Access : String
  Url : String
  Password : String
  User : String
  Database : String
  BasicAuth : Bool
  BasicAuthUser : String
  BasicAuthPassword : String
  WithCredentials : Bool
  IsDefault : Bool
  JsonData : Option Json
  deriving DecidableEq, Repr

/-- Modelled from the spec: the access-mode constant `m.DS_ACCESS_PROXY` of package
`models`, the `proxy` access mode. -/
def DS_ACCESS_PROXY : String := "proxy"

/-- Modelled from the spec: the access-mode constant `m.DS_ACCESS_DIRECT` of package
`models`, the `direct` access mode. -/
def DS_ACCESS_DIRECT : String := "direct"

/-- Modelled from the spec: the type tag `m.DS_INFLUXDB_08`, the legacy time-series
type "A". -/
def DS_INFLUXDB_08 : String := "influxdb_08"

/-- Modelled from the spec: the type tag `m.DS_INFLUXDB`, the current time-series
type "B". -/
def DS_INFLUXDB : String := "influxdb"

/-- Modelled from the spec: the type tag `m.DS_ES`, the search/log-indexing type. -/
def DS_ES : String := "elasticsearch"

/-- Modelled from the spec: the type tag `m.DS_PROMETHEUS`, the time-series-metrics
type "C". -/
def DS_PROMETHEUS : String := "prometheus"

/-- Modelled from the spec: the plugin "descriptive info" record (`PluginInfo` of package
`plugins`), whose declaration is not part of the sources. It is only copied. -/
structure PluginInfo where
  Description : String
  Version : String
  deriving DecidableEq, Repr

/-- Modelled from the spec: data-source plugin metadata (`DataSourcePlugin` of package
`plugins`): "identifier, module path, base URL, display name, descriptive info,
enablement flag". -/
structure DataSourcePlugin where
  Id : String
  Module : String
  BaseUrl : String
  Name : String
  Info : PluginInfo
  Enabled : Bool
  deriving DecidableEq, Repr

/-- Modelled from the spec: panel plugin metadata (`PanelPlugin` of package `plugins`):
"identifier, module path, base URL, display name, descriptive info, hide-from-list
flag". -/
structure PanelPlugin where
  Id : String
  Module : String
  BaseUrl : String
  Name : String
  Info : PluginInfo
  HideFromList : Bool
  deriving DecidableEq, Repr

/-- Modelled from the spec: the plugin set returned by `plugins.GetEnabledPlugins`:
the enabled data-source-type metadata map and the enabled panel plugins. -/
structure EnabledPlugins where
  Panels : List PanelPlugin
  DataSources : GoMap DataSourcePlugin
  deriving DecidableEq, Repr

/-- Go `error` value. -/
structure Error where
  msg : String
  deriving DecidableEq, Repr

/-- Modelled from the spec: the fields of `middleware.Context` the assembler reads:
organization id, signed-in flag, admin flag. -/
structure Context where
  OrgId : Int
  IsSignedIn : Bool
  IsGrafanaAdmin : Bool
  deriving DecidableEq, Repr

/-- Modelled from the spec: the process-wide configuration of package `setting` read by
the assembler. -/
structure Setting where
  AppSubUrl : String
  AllowUserOrgCreate : Bool
  AuthProxyEnabled : Bool
  LdapEnabled : Bool
  AlertingEnabled : Bool
  BuildVersion : String
  BuildCommit : String
  BuildStamp : Int
  Env : String
  deriving DecidableEq, Repr

/-- Everything outside the function that `getFrontendSettingsMap` reads: the bus handler
answering `m.GetDataSourcesQuery`, `plugins.GetEnabledPlugins`, the registry globals
`plugins.DataSources`, `plugins.GrafanaLatestVersion`, `plugins.GrafanaHasUpdate`, and
package `setting`. -/
structure World where
  GetDataSources : Int → Except Error (List DataSource)
  GetEnabledPlugins : Int → Except Error EnabledPlugins
  DataSources : GoMap DataSourcePlugin
  GrafanaLatestVersion : String
  GrafanaHasUpdate : Bool
  setting : Setting

/-- Values stored in the innermost maps of the settings document. `dsMeta` is a
`*DataSourcePlugin`, `none` for the nil pointer an absent registry lookup yields. -/
inductive Atom where
  | bool (b : Bool)
  | int (n : Int)
  | str (s : String)
  | json (j : Json)
  | dsMeta (p : Option DataSourcePlugin)
  | info (i : PluginInfo)
  deriving DecidableEq, Repr

/-- Values of the top-level `map[string]interface{}`: a plain value, a map of plain
values (`buildInfo`), or a map of such maps (`datasources`, `panels`). -/
inductive Value where
  | atom (a : Atom)
  | obj (m : GoMap Atom)
  | objs (m : GoMap (GoMap Atom))
  deriving DecidableEq, Repr

/-! ## Library functions the assembler calls -/

/-- Go `strconv.FormatInt(i, 10)`: the base-10 rendering of a signed integer. -/
def FormatInt (i : Int) : String :=
  if i < 0 then "-" ++ Nat.repr i.natAbs else Nat.repr i.toNat

/-- UTF-8 bytes of one character (the bytes a Go string holds for it). -/
def utf8Bytes (c : Char) : List Nat :=
  let n := c.toNat
  if n < 128 then [n]
  else if n < 2048 then [192 + n / 64, 128 + n % 64]
  else if n < 65536 then [224 + n / 4096, 128 + (n / 64) % 64, 128 + n % 64]
  else [240 + n / 262144, 128 + (n / 4096) % 64, 128 + (n / 64) % 64, 128 + n % 64]

/-- The standard base64 alphabet. -/
def base64Alphabet : List Char :=
  "ABCDEFGHIJKLMNOPQRSTUVWXYZabcdefghijklmnopqrstuvwxyz0123456789+/".data

/-- The base64 digit of a 6-bit group. -/
def base64Digit (n : Nat) : Char := base64Alphabet.getD n 'A'

/-- Standard base64 with `=` padding (Go `base64.StdEncoding`), on a list of bytes. -/
def base64Encode : List Nat → List Char
  | [] => []
  | [a] => [base64Digit (a / 4), base64Digit ((a % 4) * 16), '=', '=']
  | [a, b] =>
    [base64Digit (a / 4), base64Digit ((a % 4) * 16 + b / 16), base64Digit ((b % 16) * 4), '=']
  | a :: b :: d :: rest =>
    base64Digit (a / 4) :: base64Digit ((a % 4) * 16 + b / 16) ::
      base64Digit ((b % 16) * 4 + d / 64) :: base64Digit (d % 64) :: base64Encode rest

/-- Standard base64 text of a string's UTF-8 bytes. -/
def base64OfString (s : String) : String :=
  String.mk (base64Encode (s.data.flatMap utf8Bytes))

/-- Modelled from the spec: `util.GetBasicAuthHeader`, whose body is not part of the
sources: "the standard Basic-Auth header computed from the stored username/password
(base64 of `user:pass` prefixed appropriately)". -/
def GetBasicAuthHeader (user password : String) : String :=
  "Basic " ++ base64OfString (user ++ ":" ++ password)

/-! ## The assembler -/

/-- `getPanelSort`: the display rank of a panel plugin id. -/
def getPanelSort (id : String) : Int :=
  if id = "graph" then 1
  else if id = "singlestat" then 2
  else if id = "table" then 3
  else if id = "text" then 4
  else if id = "alertlist" then 5
  else if id = "dashlist" then 6
  else 100

/-- The local `url` of one loop iteration, the effective URL: the stored URL, replaced
by the proxy path of the record's id when the access mode is `proxy`. -/
def effectiveUrl (ds : DataSource) : String :=
  let url := ds.Url
  if ds.Access = DS_ACCESS_PROXY then "/api/datasources/proxy/" ++ FormatInt ds.Id else url

/-- The writes to `dsMap` in one iteration of the record loop of
`getFrontendSettingsMap`, in source order, for a record whose plugin metadata lookup
succeeded with `dsMeta`. -/
def dsMapFor (dsMeta : DataSourcePlugin) (ds : DataSource) : GoMap Atom :=
  let url := effectiveUrl ds
  let dsMap : GoMap Atom :=
    mapLit [("type", .str ds.Type_), ("name", .str ds.Name), ("url", .str url)]
  let dsMap := mapSet dsMap "meta" (.dsMeta (some dsMeta))
  let dsMap :=
    match ds.JsonData with
    | some j => mapSet dsMap "jsonData" (.json j)
    | none => dsMap
  let dsMap :=
    if ds.Access = DS_ACCESS_DIRECT then
      let dsMap :=
        if ds.BasicAuth then
          mapSet dsMap "basicAuth"
            (.str (GetBasicAuthHeader ds.BasicAuthUser ds.BasicAuthPassword))
        else dsMap
      let dsMap :=
        if ds.WithCredentials then mapSet dsMap "withCredentials" (.bool ds.WithCredentials)
        else dsMap
      let dsMap :=
        if ds.Type_ = DS_INFLUXDB_08 then
          let dsMap := mapSet dsMap "username" (.str ds.User)
          let dsMap := mapSet dsMap "password" (.str ds.Password)
          mapSet dsMap "url" (.str (url ++ "/db/" ++ ds.Database))
        else dsMap
      if ds.Type_ = DS_INFLUXDB then
        let dsMap := mapSet dsMap "username" (.str ds.User)
        let dsMap := mapSet dsMap "password" (.str ds.Password)
        let dsMap := mapSet dsMap "database" (.str ds.Database)
        mapSet dsMap "url" (.str url)
      else dsMap
    else dsMap
  let dsMap := if ds.Type_ = DS_ES then mapSet dsMap "index" (.str ds.Database) else dsMap
  let dsMap :=
    if ds.Type_ = DS_INFLUXDB then mapSet dsMap "database" (.str ds.Database) else dsMap
  if ds.Type_ = DS_PROMETHEUS then mapSet dsMap "directUrl" (.str ds.Url) else dsMap

/-- The variables the record loop of `getFrontendSettingsMap` updates, and the lines it
hands to `log.Error`. -/
structure LoopState where
  datasources : GoMap (GoMap Atom)
  defaultDatasource : String
  logged : List String
  deriving DecidableEq, Repr

/-- One iteration of `for _, ds := range orgDataSources`. A record whose type has no
entry in `enabledPlugins.DataSources` is logged and skipped (`continue`) before the
default flag is looked at and before anything is stored. -/
def processDataSource (enabledPlugins : EnabledPlugins) (st : LoopState) (ds : DataSource) :
    LoopState :=
  match mapGet enabledPlugins.DataSources ds.Type_ with
  | none =>
    { datasources := st.datasources
      defaultDatasource := st.defaultDatasource
      logged := st.logged ++ ["Could not find plugin definition for data source: " ++ ds.Type_] }
  | some dsMeta =>
    { datasources := mapSet st.datasources ds.Name (dsMapFor dsMeta ds)
      defaultDatasource := if ds.IsDefault then ds.Name else st.defaultDatasource
      logged := st.logged }

/-- The record loop of `getFrontendSettingsMap`, started from given loop variables. -/
def dataSourcesLoopFrom (enabledPlugins : EnabledPlugins) (st : LoopState)
    (orgDataSources : List DataSource) : LoopState :=
  orgDataSources.foldl (processDataSource enabledPlugins) st

/-- The record loop of `getFrontendSettingsMap`: `datasources` starts empty,
`defaultDatasource` starts as the empty string. -/
def dataSourcesLoop (enabledPlugins : EnabledPlugins) (orgDataSources : List DataSource) :
    LoopState :=
  dataSourcesLoopFrom enabledPlugins ⟨[], "", []⟩ orgDataSources

/-- The first step of `getFrontendSettingsMap`: the query is dispatched only for a
non-zero organization id; otherwise the record list stays empty. -/
def collectDataSources (w : World) (c : Context) : Except Error (List DataSource) :=
  if c.OrgId ≠ 0 then w.GetDataSources c.OrgId else .ok []

/-- The descriptor of one panel plugin. -/
def panelMap (panel : PanelPlugin) : GoMap Atom :=
  mapLit [("module", .str panel.Module), ("baseUrl", .str panel.BaseUrl),
    ("name", .str panel.Name), ("id", .str panel.Id), ("info", .info panel.Info),
    ("hideFromList", .bool panel.HideFromList), ("sort", .int (getPanelSort panel.Id))]

/-- `getFrontendSettingsMap`: the settings document, or the error of the collaborator
that failed (Go returns `nil, err` there). -/
def getFrontendSettingsMap (w : World) (c : Context) : Except Error (GoMap Value) :=
  match collectDataSources w c with
  | .error err => .error err
  | .ok orgDataSources =>
    match w.GetEnabledPlugins c.OrgId with
    | .error err => .error err
    | .ok enabledPlugins =>
      let st := dataSourcesLoop enabledPlugins orgDataSources
      let grafanaDatasourceMeta := mapGet w.DataSources "grafana"
      let datasources := mapSet st.datasources "-- Grafana --"
        (mapLit [("type", .str "grafana"), ("name", .str "-- Grafana --"),
          ("meta", .dsMeta grafanaDatasourceMeta)])
      let datasources := mapSet datasources "-- Mixed --"
        (mapLit [("type", .str "mixed"), ("meta", .dsMeta (mapGet w.DataSources "mixed"))])
      let defaultDatasource :=
        if st.defaultDatasource = "" then "-- Grafana --" else st.defaultDatasource
      let panels : GoMap (GoMap Atom) :=
        enabledPlugins.Panels.foldl (fun panels panel => mapSet panels panel.Id (panelMap panel)) []
      .ok (mapLit [
        ("defaultDatasource", .atom (.str defaultDatasource)),
        ("datasources", .objs datasources),
        ("panels", .objs panels),
        ("appSubUrl", .atom (.str w.setting.AppSubUrl)),
        ("allowOrgCreate",
          .atom (.bool ((w.setting.AllowUserOrgCreate && c.IsSignedIn) || c.IsGrafanaAdmin))),
        ("authProxyEnabled", .atom (.bool w.setting.AuthProxyEnabled)),
        ("ldapEnabled", .atom (.bool w.setting.LdapEnabled)),
        ("alertingEnabled", .atom (.bool w.setting.AlertingEnabled)),
        ("buildInfo", .obj (mapLit [
          ("version", .str w.setting.BuildVersion),
          ("commit", .str w.setting.BuildCommit),
          ("buildstamp", .int w.setting.BuildStamp),
          ("latestVersion", .str w.GrafanaLatestVersion),
          ("hasUpdate", .bool w.GrafanaHasUpdate),
          ("env", .str w.setting.Env)]))])

/-- The lines `getFrontendSettingsMap` hands to `log.Error` (none when it returns before
the record loop). -/
def getFrontendSettingsLogged (w : World) (c : Context) : List String :=
  match collectDataSources w c, w.GetEnabledPlugins c.OrgId with
  | .ok orgDataSources, .ok enabledPlugins => (dataSourcesLoop enabledPlugins orgDataSources).logged
  | _, _ => []

/-- What the handler writes: `c.JSON(status, settings)` or
`c.JsonApiErr(status, message, err)`. -/
inductive Response where
  | json (status : Nat) (settings : GoMap Value)
  | jsonApiErr (status : Nat) (message : String) (err : Error)
  deriving DecidableEq, Repr

/-- `GetFrontendSettings`: the HTTP handler around `getFrontendSettingsMap`. -/
def GetFrontendSettings (w : World) (c : Context) : Response :=
  match getFrontendSettingsMap w c with
  | .error err => .jsonApiErr 400 "Failed to get frontend settings" err
  | .ok settings => .json 200 settings

/-- The entry of the `datasources` mapping under key `name` in a settings document. -/
def datasourcesEntry (settings : GoMap Value) (name : String) : Option (GoMap Atom) :=
  match mapGet settings "datasources" with
  | some (.objs m) => mapGet m name
  | _ => none

/-! ## Definitions used to state the claims -/

/-- The world `w` with the data-source query answering `records`. -/
def withRecords (w : World) (records : List DataSource) : World :=
  { GetDataSources := fun _ => .ok records
    GetEnabledPlugins := w.GetEnabledPlugins
    DataSources := w.DataSources
    GrafanaLatestVersion := w.GrafanaLatestVersion
    GrafanaHasUpdate := w.GrafanaHasUpdate
    setting := w.setting }

/-- Whether the record's type has an entry in the enabled data-source plugin metadata. -/
def isRegistered (ep : EnabledPlugins) (ds : DataSource) : Bool :=
  (mapGet ep.DataSources ds.Type_).isSome

/-! ## A concrete world used to evaluate the definitions -/

/-- Plugin metadata for a data-source type. -/
def demoPlugin (id : String) : DataSourcePlugin :=
  ⟨id, "app/plugins/datasource/" ++ id ++ "/module", "public/app/plugins/datasource/" ++ id,
    id, ⟨"", "1.0.0"⟩, true⟩

/-- An enabled-plugin set with four data-source types and two panels. -/
def demoEnabled : EnabledPlugins :=
  { Panels := [⟨"graph", "m", "b", "Graph", ⟨"", ""⟩, false⟩,
      ⟨"heatmap", "m", "b", "Heatmap", ⟨"", ""⟩, false⟩]
    DataSources := mapLit [("graphite", demoPlugin "graphite"),
      ("influxdb", demoPlugin "influxdb"), ("influxdb_08", demoPlugin "influxdb_08"),
      ("prometheus", demoPlugin "prometheus")] }

/-- A record with the given id, name, type and access mode; the other fields are fixed. -/
def demoRecord (id : Int) (name type access : String) (isDefault : Bool) : DataSource :=
  { Id := id, OrgId := 1, Name := name, Type_ := type, Access := access,
    Url := "http://db:8086", Password := "pw", User := "u", Database := "metrics",
    BasicAuth := true, BasicAuthUser := "user", BasicAuthPassword := "pass",
    WithCredentials := false, IsDefault := isDefault, JsonData := none }

/-- A world whose data-source query answers with `records` and whose plugin lookup
answers with `demoEnabled`. -/
def demoWorld (records : List DataSource) : World :=
  { GetDataSources := fun _ => .ok records
    GetEnabledPlugins := fun _ => .ok demoEnabled
    DataSources := mapLit [("grafana", demoPlugin "grafana"), ("mixed", demoPlugin "mixed")]
    GrafanaLatestVersion := "4.0.0"
    GrafanaHasUpdate := false
    setting := ⟨"", true, false, false, true, "4.0.0", "abc", 1480000000, "production"⟩ }

/-- A signed-in, non-admin session of organization 1. -/
def demoContext : Context := ⟨1, true, false⟩

/-- A world whose data-source query fails. -/
def failingQueryWorld : World :=
  { GetDataSources := fun _ => .error ⟨"database is locked"⟩
    GetEnabledPlugins := fun _ => .ok demoEnabled
    DataSources := []
    GrafanaLatestVersion := ""
    GrafanaHasUpdate := false
    setting := ⟨"", false, false, false, false, "", "", 0, ""⟩ }

/-- A registered proxy record named `name` whose extension JSON data is `j`. -/
def demoRecordJson (name : String) (j : Option Json) : DataSource :=
  { Id := 1, OrgId := 1, Name := name, Type_ := "graphite", Access := "proxy",
    Url := "http://db:8086", Password := "pw", User := "u", Database := "metrics",
    BasicAuth := false, BasicAuthUser := "", BasicAuthPassword := "",
    WithCredentials := false, IsDefault := false, JsonData := j }

/-- The record `ds` with its four stored credential fields replaced. -/
def setCredentials (ds : DataSource)
    (basicAuthUser basicAuthPassword user password : String) : DataSource :=
  { Id := ds.Id, OrgId := ds.OrgId, Name := ds.Name, Type_ := ds.Type_, Access := ds.Access,
    Url := ds.Url, Password := password, User := user, Database := ds.Database,
    BasicAuth := ds.BasicAuth, BasicAuthUser := basicAuthUser,
    BasicAuthPassword := basicAuthPassword, WithCredentials := ds.WithCredentials,
    IsDefault := ds.IsDefault, JsonData := ds.JsonData }

/-- Two records that are equal, or whose access mode is not `direct` and that differ at
most in the stored basic-auth user, basic-auth password, user and password. -/
def sameUpToHiddenCredentials (r r' : DataSource) : Prop :=
  r' = r ∨ (r.Access ≠ DS_ACCESS_DIRECT ∧
    r' = setCredentials r r'.BasicAuthUser r'.BasicAuthPassword r'.User r'.Password)

/-- The effect of one loop iteration on the two loop variables that reach the returned
document, `datasources` and `defaultDatasource`. -/
def processCore (ep : EnabledPlugins) (z : GoMap (GoMap Atom) × String) (ds : DataSource) :
    GoMap (GoMap Atom) × String :=
  match mapGet ep.DataSources ds.Type_ with
  | none => z
  | some dsMeta =>
    (mapSet z.1 ds.Name (dsMapFor dsMeta ds), if ds.IsDefault then ds.Name else z.2)

/-! ## Lemmas about Go maps -/

theorem mapGet_mapSet {α : Type} (m : GoMap α) (k k' : String) (v : α) :
    mapGet (mapSet m k v) k' = if k' = k then some v else mapGet m k' := by
  induction m with
  | nil => simp [mapSet, mapGet]
  | cons hd tl ih =>
    obtain ⟨a, b⟩ := hd
    by_cases h1 : k = a
    · subst h1
      by_cases h3 : k' = k <;> simp [mapSet, mapGet, h3]
    · by_cases h2 : keyLt k a = true
      · simp [mapSet, mapGet, h1, h2]
      · simp only [mapSet, mapGet, h1, h2, if_false, ih]
        by_cases h3 : k' = a
        · subst h3
          have : ¬ k' = k := fun h => h1 h.symm
          simp [this]
        · simp [h3]

theorem mapGet_mapSet_self {α : Type} (m : GoMap α) (k : String) (v : α) :
    mapGet (mapSet m k v) k = some v := by
  simp [mapGet_mapSet]

theorem mapGet_mapSet_ne {α : Type} (m : GoMap α) (k k' : String) (v : α) (h : k' ≠ k) :
    mapGet (mapSet m k v) k' = mapGet m k' := by
  simp [mapGet_mapSet, h]

theorem mapGet_nil {α : Type} (k : String) : mapGet ([] : GoMap α) k = none := rfl

/-! ## Lemmas about the record loop -/

theorem dataSourcesLoopFrom_nil (ep : EnabledPlugins) (st : LoopState) :
    dataSourcesLoopFrom ep st [] = st := rfl

theorem dataSourcesLoopFrom_cons (ep : EnabledPlugins) (st : LoopState) (ds : DataSource)
    (rest : List DataSource) :
    dataSourcesLoopFrom ep st (ds :: rest)
      = dataSourcesLoopFrom ep (processDataSource ep st ds) rest := rfl

theorem dataSourcesLoopFrom_append (ep : EnabledPlugins) (st : LoopState)
    (xs ys : List DataSource) :
    dataSourcesLoopFrom ep st (xs ++ ys)
      = dataSourcesLoopFrom ep (dataSourcesLoopFrom ep st xs) ys := by
  simp [dataSourcesLoopFrom, List.foldl_append]

theorem dataSourcesLoop_snoc (ep : EnabledPlugins) (xs : List DataSource) (ds : DataSource) :
    dataSourcesLoop ep (xs ++ [ds]) = processDataSource ep (dataSourcesLoop ep xs) ds := by
  simp [dataSourcesLoop, dataSourcesLoopFrom, List.foldl_append]

theorem take_succ_of_getElem? (L : List DataSource) (i : Nat) (ds : DataSource)
    (h : L[i]? = some ds) : L.take (i + 1) = L.take i ++ [ds] := by
  rw [List.take_succ, h]
  rfl

theorem split_after (L : List DataSource) (i : Nat) :
    L = L.take (i + 1) ++ L.drop (i + 1) :=
  (List.take_append_drop (i + 1) L).symm

theorem processDataSource_registered (ep : EnabledPlugins) (st : LoopState) (ds : DataSource)
    (dsMeta : DataSourcePlugin) (h : mapGet ep.DataSources ds.Type_ = some dsMeta) :
    processDataSource ep st ds
      = { datasources := mapSet st.datasources ds.Name (dsMapFor dsMeta ds)
          defaultDatasource := if ds.IsDefault then ds.Name else st.defaultDatasource
          logged := st.logged } := by
  simp [processDataSource, h]

theorem processDataSource_skipped (ep : EnabledPlugins) (st : LoopState) (ds : DataSource)
    (h : mapGet ep.DataSources ds.Type_ = none) :
    (processDataSource ep st ds).datasources = st.datasources ∧
      (processDataSource ep st ds).defaultDatasource = st.defaultDatasource := by
  simp [processDataSource, h]

/-- The entry stored by a record's own iteration is the descriptor of that record. -/
theorem built_descriptor (ep : EnabledPlugins) (L : List DataSource) (i : Nat)
    (ds : DataSource) (dsMeta : DataSourcePlugin) (hds : L[i]? = some ds)
    (hMeta : mapGet ep.DataSources ds.Type_ = some dsMeta) :
    mapGet (dataSourcesLoop ep (L.take (i + 1))).datasources ds.Name
      = some (dsMapFor dsMeta ds) := by
  rw [take_succ_of_getElem? L i ds hds, dataSourcesLoop_snoc,
    processDataSource_registered ep _ ds dsMeta hMeta]
  exact mapGet_mapSet_self _ _ _

/-- Later records leave the entry under `name` alone unless a registered one is called
`name`. -/
theorem loopFrom_get_of_no_later (ep : EnabledPlugins) (name : String)
    (post : List DataSource) (st : LoopState)
    (h : ∀ r ∈ post, r.Name = name → mapGet ep.DataSources r.Type_ = none) :
    mapGet (dataSourcesLoopFrom ep st post).datasources name = mapGet st.datasources name := by
  induction post generalizing st with
  | nil => rfl
  | cons r rest ih =>
    rw [dataSourcesLoopFrom_cons, ih _ (fun x hx => h x (List.mem_cons_of_mem _ hx))]
    cases hr : mapGet ep.DataSources r.Type_ with
    | none => rw [(processDataSource_skipped ep st r hr).1]
    | some rMeta =>
      rw [processDataSource_registered ep st r rMeta hr]
      have hne : name ≠ r.Name := by
        intro hEq
        have := h r (List.mem_cons_self _ _) hEq.symm
        rw [hr] at this
        cases this
      exact mapGet_mapSet_ne _ _ _ _ hne

/-- The entry left in the loop's `datasources` under a record's name when no later
registered record has that name. -/
theorem loop_get_last (ep : EnabledPlugins) (L : List DataSource) (i : Nat)
    (ds : DataSource) (dsMeta : DataSourcePlugin) (hds : L[i]? = some ds)
    (hMeta : mapGet ep.DataSources ds.Type_ = some dsMeta)
    (hLater : ∀ r ∈ L.drop (i + 1), r.Name = ds.Name → mapGet ep.DataSources r.Type_ = none) :
    mapGet (dataSourcesLoop ep L).datasources ds.Name = some (dsMapFor dsMeta ds) := by
  have hsplit := split_after L i
  have hrun : dataSourcesLoop ep L
      = dataSourcesLoopFrom ep (dataSourcesLoop ep (L.take (i + 1))) (L.drop (i + 1)) := by
    conv_lhs => rw [hsplit]
    exact dataSourcesLoopFrom_append ep _ _ _
  rw [hrun, loopFrom_get_of_no_later ep ds.Name _ _ hLater]
  exact built_descriptor ep L i ds dsMeta hds hMeta

/-! ## Lemmas about the returned document -/

/-- On success the document's `datasources` and `defaultDatasource` entries are the
loop's results with the two synthetic entries and the sentinel added. -/
theorem getFrontendSettingsMap_ok (w : World) (c : Context) (L : List DataSource)
    (ep : EnabledPlugins) (hL : collectDataSources w c = .ok L)
    (hP : w.GetEnabledPlugins c.OrgId = .ok ep) :
    ∃ settings, getFrontendSettingsMap w c = .ok settings ∧
      mapGet settings "datasources" = some (.objs
        (mapSet (mapSet (dataSourcesLoop ep L).datasources "-- Grafana --"
          (mapLit [("type", .str "grafana"), ("name", .str "-- Grafana --"),
            ("meta", .dsMeta (mapGet w.DataSources "grafana"))])) "-- Mixed --"
          (mapLit [("type", .str "mixed"), ("meta", .dsMeta (mapGet w.DataSources "mixed"))]))) ∧
      mapGet settings "defaultDatasource" = some (.atom (.str
        (if (dataSourcesLoop ep L).defaultDatasource = "" then "-- Grafana --"
          else (dataSourcesLoop ep L).defaultDatasource))) := by
  simp only [getFrontendSettingsMap, hL, hP]
  refine ⟨_, rfl, ?_, ?_⟩
  · simp [mapLit, mapGet_mapSet, mapGet_nil]
  · simp [mapLit, mapGet_mapSet, mapGet_nil]

/-- Entries of the returned `datasources` under non-synthetic names are the loop's. -/
theorem datasourcesEntry_of_loop (w : World) (c : Context) (L : List DataSource)
    (ep : EnabledPlugins) (hL : collectDataSources w c = .ok L)
    (hP : w.GetEnabledPlugins c.OrgId = .ok ep) (name : String)
    (hG : name ≠ "-- Grafana --") (hM : name ≠ "-- Mixed --") :
    ∃ settings, getFrontendSettingsMap w c = .ok settings ∧
      datasourcesEntry settings name = mapGet (dataSourcesLoop ep L).datasources name := by
  obtain ⟨settings, hs, hd, _⟩ := getFrontendSettingsMap_ok w c L ep hL hP
  refine ⟨settings, hs, ?_⟩
  simp [datasourcesEntry, hd, mapGet_mapSet, hG, hM]

/-! ## Lemmas about descriptors -/


theorem descriptor_visible (w : World) (c : Context) (L : List DataSource)
    (ep : EnabledPlugins) (i : Nat) (ds : DataSource) (dsMeta : DataSourcePlugin)
    (hL : collectDataSources w c = .ok L) (hP : w.GetEnabledPlugins c.OrgId = .ok ep)
    (hds : L[i]? = some ds) (hMeta : mapGet ep.DataSources ds.Type_ = some dsMeta)
    (hG : ds.Name ≠ "-- Grafana --") (hM : ds.Name ≠ "-- Mixed --")
    (hLater : ∀ r ∈ L.drop (i + 1), r.Name = ds.Name → mapGet ep.DataSources r.Type_ = none) :
    ∃ settings, getFrontendSettingsMap w c = .ok settings ∧
      datasourcesEntry settings ds.Name = some (dsMapFor dsMeta ds) := by
  obtain ⟨settings, hs, he⟩ := datasourcesEntry_of_loop w c L ep hL hP ds.Name hG hM
  exact ⟨settings, hs, he.trans (loop_get_last ep L i ds dsMeta hds hMeta hLater)⟩

theorem effectiveUrl_proxy (ds : DataSource) (h : ds.Access = DS_ACCESS_PROXY) :
    effectiveUrl ds = "/api/datasources/proxy/" ++ FormatInt ds.Id := by
  simp [effectiveUrl, h]

theorem effectiveUrl_not_proxy (ds : DataSource) (h : ds.Access ≠ DS_ACCESS_PROXY) :
    effectiveUrl ds = ds.Url := by
  simp [effectiveUrl, h]

theorem direct_ne_proxy : DS_ACCESS_DIRECT ≠ DS_ACCESS_PROXY := by decide

theorem dsMapFor_url_not_direct (dsMeta : DataSourcePlugin) (ds : DataSource)
    (hAccess : ds.Access ≠ DS_ACCESS_DIRECT) :
    mapGet (dsMapFor dsMeta ds) "url" = some (.str (effectiveUrl ds)) := by
  unfold dsMapFor
  simp only [hAccess, if_false]
  cases ds.JsonData <;> simp only [] <;> split_ifs <;> simp [mapLit, mapGet_mapSet, mapGet_nil]

theorem dsMapFor_basicAuth (dsMeta : DataSourcePlugin) (ds : DataSource)
    (hAccess : ds.Access = DS_ACCESS_DIRECT) (hBasic : ds.BasicAuth = true) :
    mapGet (dsMapFor dsMeta ds) "basicAuth"
      = some (.str (GetBasicAuthHeader ds.BasicAuthUser ds.BasicAuthPassword)) := by
  unfold dsMapFor
  simp only [hAccess, hBasic, if_true]
  cases ds.JsonData <;> simp only [] <;> split_ifs <;> simp [mapLit, mapGet_mapSet, mapGet_nil]

theorem dsMapFor_influxdb08_direct (dsMeta : DataSourcePlugin) (ds : DataSource)
    (hType : ds.Type_ = DS_INFLUXDB_08) (hAccess : ds.Access = DS_ACCESS_DIRECT) :
    mapGet (dsMapFor dsMeta ds) "url" = some (.str (effectiveUrl ds ++ "/db/" ++ ds.Database)) ∧
    mapGet (dsMapFor dsMeta ds) "username" = some (.str ds.User) ∧
    mapGet (dsMapFor dsMeta ds) "password" = some (.str ds.Password) := by
  have h1 : ¬ (DS_INFLUXDB_08 = DS_INFLUXDB) := by decide
  have h2 : ¬ (DS_INFLUXDB_08 = DS_ES) := by decide
  have h3 : ¬ (DS_INFLUXDB_08 = DS_PROMETHEUS) := by decide
  unfold dsMapFor
  simp only [hType, hAccess, h1, h2, h3, if_true, if_false]
  cases ds.JsonData <;> simp only [] <;> split_ifs <;>
    simp [mapLit, mapGet_mapSet, mapGet_nil]

theorem dsMapFor_influxdb (dsMeta : DataSourcePlugin) (ds : DataSource)
    (hType : ds.Type_ = DS_INFLUXDB) :
    mapGet (dsMapFor dsMeta ds) "database" = some (.str ds.Database) ∧
    (ds.Access = DS_ACCESS_DIRECT →
      mapGet (dsMapFor dsMeta ds) "username" = some (.str ds.User) ∧
      mapGet (dsMapFor dsMeta ds) "password" = some (.str ds.Password) ∧
      mapGet (dsMapFor dsMeta ds) "url" = some (.str (effectiveUrl ds))) ∧
    (ds.Access ≠ DS_ACCESS_DIRECT →
      mapGet (dsMapFor dsMeta ds) "username" = none ∧
      mapGet (dsMapFor dsMeta ds) "password" = none) := by
  have h1 : ¬ (DS_INFLUXDB = DS_INFLUXDB_08) := by decide
  have h2 : ¬ (DS_INFLUXDB = DS_ES) := by decide
  have h3 : ¬ (DS_INFLUXDB = DS_PROMETHEUS) := by decide
  refine ⟨?_, ?_, ?_⟩
  · unfold dsMapFor
    simp only [hType, h1, h2, h3, if_true, if_false]
    cases ds.JsonData <;> simp only [] <;> split_ifs <;>
      simp [mapLit, mapGet_mapSet, mapGet_nil]
  · intro hAccess
    unfold dsMapFor
    simp only [hType, hAccess, h1, h2, h3, if_true, if_false]
    cases ds.JsonData <;> simp only [] <;> split_ifs <;>
      simp [mapLit, mapGet_mapSet, mapGet_nil]
  · intro hAccess
    unfold dsMapFor
    simp only [hType, hAccess, h1, h2, h3, if_true, if_false]
    cases ds.JsonData <;> simp only [] <;>
      simp [mapLit, mapGet_mapSet, mapGet_nil]

/-! ## Further lemmas about the loop -/

theorem mapGet_eq_none_iff {α : Type} (m : GoMap α) (k : String) :
    mapGet m k = none ↔ k ∉ mapKeys m := by
  induction m with
  | nil => simp [mapGet, mapKeys]
  | cons hd tl ih =>
    obtain ⟨a, b⟩ := hd
    by_cases h : k = a
    · simp [mapGet, mapKeys, h]
    · simp only [mapGet, h, if_false, ih]
      simp [mapKeys, h]

theorem mapGet_isSome_iff {α : Type} (m : GoMap α) (k : String) :
    (mapGet m k).isSome = true ↔ k ∈ mapKeys m := by
  rw [← not_iff_not, ← mapGet_eq_none_iff]
  cases mapGet m k <;> simp

/-- Records that are skipped or do not carry the default flag leave `defaultDatasource`
alone. -/
theorem loopFrom_default_of_no_later (ep : EnabledPlugins) (post : List DataSource)
    (st : LoopState)
    (h : ∀ r ∈ post, r.IsDefault = true → mapGet ep.DataSources r.Type_ = none) :
    (dataSourcesLoopFrom ep st post).defaultDatasource = st.defaultDatasource := by
  induction post generalizing st with
  | nil => rfl
  | cons r rest ih =>
    rw [dataSourcesLoopFrom_cons, ih _ (fun x hx => h x (List.mem_cons_of_mem _ hx))]
    cases hr : mapGet ep.DataSources r.Type_ with
    | none => rw [(processDataSource_skipped ep st r hr).2]
    | some rMeta =>
      rw [processDataSource_registered ep st r rMeta hr]
      have hnd : ¬ (r.IsDefault = true) := by
        intro hd
        have := h r (List.mem_cons_self _ _) hd
        rw [hr] at this
        cases this
      simp [hnd]

/-- Dropping the records with unregistered type changes neither `datasources` nor
`defaultDatasource` of the loop. -/
theorem loopFrom_filter_registered (ep : EnabledPlugins) (L : List DataSource)
    (st st' : LoopState) (hd : st.datasources = st'.datasources)
    (hdef : st.defaultDatasource = st'.defaultDatasource) :
    (dataSourcesLoopFrom ep st L).datasources
        = (dataSourcesLoopFrom ep st' (L.filter (isRegistered ep))).datasources ∧
      (dataSourcesLoopFrom ep st L).defaultDatasource
        = (dataSourcesLoopFrom ep st' (L.filter (isRegistered ep))).defaultDatasource := by
  induction L generalizing st st' with
  | nil => exact ⟨hd, hdef⟩
  | cons r rest ih =>
    cases hr : mapGet ep.DataSources r.Type_ with
    | none =>
      have hf : (r :: rest).filter (isRegistered ep) = rest.filter (isRegistered ep) := by
        simp [List.filter, isRegistered, hr]
      rw [hf, dataSourcesLoopFrom_cons]
      obtain ⟨h1, h2⟩ := processDataSource_skipped ep st r hr
      exact ih _ _ (h1.trans hd) (h2.trans hdef)
    | some rMeta =>
      have hf : (r :: rest).filter (isRegistered ep)
          = r :: rest.filter (isRegistered ep) := by
        simp [List.filter, isRegistered, hr]
      rw [hf, dataSourcesLoopFrom_cons, dataSourcesLoopFrom_cons]
      apply ih
      · rw [processDataSource_registered ep st r rMeta hr,
          processDataSource_registered ep st' r rMeta hr]
        simp [hd]
      · rw [processDataSource_registered ep st r rMeta hr,
          processDataSource_registered ep st' r rMeta hr]
        simp [hdef]

theorem collectDataSources_withRecords (w : World) (c : Context) (L : List DataSource) :
    collectDataSources (withRecords w L) c = .ok (if c.OrgId ≠ 0 then L else []) := by
  by_cases h : c.OrgId = 0 <;> simp [collectDataSources, withRecords, h]

/-! ## Lemmas about descriptor fields, document keys and the key order -/

theorem mapGet_ite {α : Type} (c : Prop) [Decidable c] (a b : GoMap α) (k : String) :
    mapGet (if c then a else b) k = if c then mapGet a k else mapGet b k := by
  split_ifs <;> rfl

theorem dsMapFor_jsonData (dsMeta : DataSourcePlugin) (ds : DataSource) :
    mapGet (dsMapFor dsMeta ds) "jsonData" = ds.JsonData.map Atom.json := by
  unfold dsMapFor
  cases ds.JsonData <;>
    simp [mapLit, mapGet_ite, mapGet_mapSet, mapGet_nil]

theorem dsMapFor_directUrl (dsMeta : DataSourcePlugin) (ds : DataSource) :
    mapGet (dsMapFor dsMeta ds) "directUrl"
      = if ds.Type_ = DS_PROMETHEUS then some (.str ds.Url) else none := by
  unfold dsMapFor
  cases ds.JsonData <;>
    simp [mapLit, mapGet_ite, mapGet_mapSet, mapGet_nil]

theorem dsMapFor_no_credentials (dsMeta : DataSourcePlugin) (ds : DataSource)
    (hAccess : ds.Access ≠ DS_ACCESS_DIRECT) :
    mapGet (dsMapFor dsMeta ds) "basicAuth" = none ∧
    mapGet (dsMapFor dsMeta ds) "withCredentials" = none ∧
    mapGet (dsMapFor dsMeta ds) "username" = none ∧
    mapGet (dsMapFor dsMeta ds) "password" = none := by
  unfold dsMapFor
  simp only [hAccess, if_false]
  cases ds.JsonData <;>
    simp [mapLit, mapGet_ite, mapGet_mapSet, mapGet_nil]

/-- The whole document on success, with its keys in canonical order. -/
theorem getFrontendSettingsMap_keys (w : World) (c : Context) (L : List DataSource)
    (ep : EnabledPlugins) (hL : collectDataSources w c = .ok L)
    (hP : w.GetEnabledPlugins c.OrgId = .ok ep) :
    ∃ settings buildInfo, getFrontendSettingsMap w c = .ok settings ∧
      mapKeys settings = ["alertingEnabled", "allowOrgCreate", "appSubUrl",
        "authProxyEnabled", "buildInfo", "datasources", "defaultDatasource", "ldapEnabled",
        "panels"] ∧
      mapGet settings "buildInfo" = some (.obj buildInfo) ∧
      mapKeys buildInfo = ["buildstamp", "commit", "env", "hasUpdate", "latestVersion",
        "version"] := by
  simp only [getFrontendSettingsMap, hL, hP]
  exact ⟨_, _, rfl, rfl, rfl, rfl⟩

theorem ok_inputs (w : World) (c : Context) (settings : GoMap Value)
    (h : getFrontendSettingsMap w c = .ok settings) :
    ∃ L ep, collectDataSources w c = .ok L ∧ w.GetEnabledPlugins c.OrgId = .ok ep := by
  unfold getFrontendSettingsMap at h
  cases hL : collectDataSources w c with
  | error e =>
    rw [hL] at h
    cases h
  | ok L =>
    cases hP : w.GetEnabledPlugins c.OrgId with
    | error e =>
      rw [hL] at h
      simp only [hP] at h
      cases h
    | ok ep => exact ⟨L, ep, rfl, rfl⟩

theorem codesLt_irrefl (a : List Nat) : codesLt a a = false := by
  induction a with
  | nil => rfl
  | cons x xs ih => simp [codesLt, ih]

theorem codesLt_total (a b : List Nat) (h : a ≠ b) :
    codesLt a b = true ∨ codesLt b a = true := by
  induction a generalizing b with
  | nil =>
    cases b with
    | nil => exact absurd rfl h
    | cons y ys => exact Or.inl rfl
  | cons x xs ih =>
    cases b with
    | nil => exact Or.inr rfl
    | cons y ys =>
      rcases Nat.lt_trichotomy x y with hxy | hxy | hxy
      · left
        simp [codesLt, hxy]
      · subst hxy
        have hne : xs ≠ ys := fun e => h (by rw [e])
        rcases ih ys hne with h1 | h1
        · left
          simp [codesLt, h1]
        · right
          simp [codesLt, h1]
      · right
        simp [codesLt, hxy]

theorem codesLt_trans (a b c : List Nat) (hab : codesLt a b = true) (hbc : codesLt b c = true) :
    codesLt a c = true := by
  induction a generalizing b c with
  | nil =>
    cases c with
    | nil => cases b <;> simp [codesLt] at hbc
    | cons z zs => rfl
  | cons x xs ih =>
    cases b with
    | nil => simp [codesLt] at hab
    | cons y ys =>
      cases c with
      | nil => simp [codesLt] at hbc
      | cons z zs =>
        simp only [codesLt, Bool.or_eq_true, Bool.and_eq_true, decide_eq_true_eq] at hab hbc ⊢
        rcases hab with hxy | ⟨hxy, hr⟩
        · rcases hbc with hyz | ⟨hyz, _⟩
          · exact Or.inl (Nat.lt_trans hxy hyz)
          · exact Or.inl (hyz ▸ hxy)
        · rcases hbc with hyz | ⟨hyz, hr'⟩
          · exact Or.inl (hxy ▸ hyz)
          · exact Or.inr ⟨hxy.trans hyz, ih ys zs hr hr'⟩

theorem charCodes_injective (a b : String)
    (h : a.data.map Char.toNat = b.data.map Char.toNat) : a = b := by
  have hinj : Function.Injective Char.toNat := by
    intro c d hcd
    rw [← Char.ofNat_toNat c, ← Char.ofNat_toNat d, hcd]
  exact String.ext (List.map_injective_iff.mpr hinj h)

theorem keyLt_irrefl (a : String) : keyLt a a = false := codesLt_irrefl _

theorem keyLt_trans (a b c : String) (hab : keyLt a b = true) (hbc : keyLt b c = true) :
    keyLt a c = true := codesLt_trans _ _ _ hab hbc

theorem keyLt_total (a b : String) (h : a ≠ b) : keyLt a b = true ∨ keyLt b a = true :=
  codesLt_total _ _ (fun e => h (charCodes_injective a b e))

theorem keyLt_asymm (a b : String) (hab : keyLt a b = true) : keyLt b a = false := by
  cases hba : keyLt b a with
  | false => rfl
  | true =>
    have := keyLt_trans a b a hab hba
    rw [keyLt_irrefl] at this
    cases this

/-- Writes under two different keys can be swapped. -/
theorem mapSet_comm {α : Type} (m : GoMap α) (k1 k2 : String) (v1 v2 : α) (hne : k1 ≠ k2) :
    mapSet (mapSet m k1 v1) k2 v2 = mapSet (mapSet m k2 v2) k1 v1 := by
  have hne' : k2 ≠ k1 := fun e => hne e.symm
  induction m with
  | nil =>
    rcases keyLt_total k1 k2 hne with h | h
    · simp [mapSet, hne, hne', h, keyLt_asymm _ _ h]
    · simp [mapSet, hne, hne', h, keyLt_asymm _ _ h]
  | cons hd tl ih =>
    obtain ⟨a, b⟩ := hd
    by_cases e1 : k1 = a
    · subst e1
      by_cases l2 : keyLt k2 k1 = true
      · simp [mapSet, hne, hne', l2, keyLt_asymm _ _ l2]
      · simp [mapSet, hne, hne', l2]
    · by_cases e2 : k2 = a
      · subst e2
        by_cases l1 : keyLt k1 k2 = true
        · simp [mapSet, hne, hne', l1, keyLt_asymm _ _ l1]
        · simp [mapSet, hne, hne', l1]
      · by_cases l1 : keyLt k1 a = true
        · by_cases l2 : keyLt k2 a = true
          · rcases keyLt_total k1 k2 hne with h | h
            · simp [mapSet, hne, hne', e1, e2, l1, l2, h, keyLt_asymm _ _ h]
            · simp [mapSet, hne, hne', e1, e2, l1, l2, h, keyLt_asymm _ _ h]
          · have h21 : ¬ keyLt k2 k1 = true := fun h => l2 (keyLt_trans _ _ _ h l1)
            simp [mapSet, hne, hne', e1, e2, l1, l2, h21]
        · by_cases l2 : keyLt k2 a = true
          · have h12 : ¬ keyLt k1 k2 = true := fun h => l1 (keyLt_trans _ _ _ h l2)
            simp [mapSet, hne, hne', e1, e2, l1, l2, h12]
          · simp [mapSet, hne, hne', e1, e2, l1, l2, ih]

theorem dsMapFor_setCredentials (dsMeta : DataSourcePlugin) (ds : DataSource)
    (bu bp u p : String) (hAccess : ds.Access ≠ DS_ACCESS_DIRECT) :
    dsMapFor dsMeta (setCredentials ds bu bp u p) = dsMapFor dsMeta ds := by
  simp only [dsMapFor, effectiveUrl, setCredentials, hAccess, if_false]

theorem processDataSource_hidden (ep : EnabledPlugins) (st : LoopState) (r r' : DataSource)
    (h : sameUpToHiddenCredentials r r') :
    processDataSource ep st r' = processDataSource ep st r := by
  rcases h with h | ⟨hA, h⟩
  · rw [h]
  · rw [h]
    unfold processDataSource
    have hT : (setCredentials r r'.BasicAuthUser r'.BasicAuthPassword r'.User r'.Password).Type_
        = r.Type_ := rfl
    rw [hT]
    cases mapGet ep.DataSources r.Type_ with
    | none => rfl
    | some dsMeta =>
      simp only [dsMapFor_setCredentials dsMeta r _ _ _ _ hA]
      rfl

theorem loopFrom_hidden (ep : EnabledPlugins) (L L' : List DataSource)
    (h : List.Forall₂ sameUpToHiddenCredentials L L') (st : LoopState) :
    dataSourcesLoopFrom ep st L' = dataSourcesLoopFrom ep st L := by
  induction h generalizing st with
  | nil => rfl
  | cons hr _ ih =>
    rw [dataSourcesLoopFrom_cons, dataSourcesLoopFrom_cons, processDataSource_hidden ep st _ _ hr]
    exact ih _

/-- The returned value depends on the record list only through the loop's result. -/
theorem result_of_loop_eq (w : World) (c : Context) (L L' : List DataSource)
    (ep : EnabledPlugins) (hP : w.GetEnabledPlugins c.OrgId = .ok ep)
    (hd : (dataSourcesLoop ep L).datasources = (dataSourcesLoop ep L').datasources)
    (hdef : (dataSourcesLoop ep L).defaultDatasource
      = (dataSourcesLoop ep L').defaultDatasource) :
    getFrontendSettingsMap (withRecords w L) c = getFrontendSettingsMap (withRecords w L') c := by
  have hP1 : ∀ R, (withRecords w R).GetEnabledPlugins c.OrgId = .ok ep := fun _ => hP
  by_cases h0 : c.OrgId = 0
  · simp [getFrontendSettingsMap, collectDataSources, h0]
    rfl
  · simp only [getFrontendSettingsMap, collectDataSources_withRecords, hP1, h0,
      ne_eq, not_false_eq_true, if_true, hd, hdef]
    rfl

theorem mapSet_length_le {α : Type} (m : GoMap α) (k : String) (v : α) :
    (mapSet m k v).length ≤ m.length + 1 := by
  induction m with
  | nil => simp [mapSet]
  | cons hd tl ih =>
    obtain ⟨a, b⟩ := hd
    simp only [mapSet]
    split_ifs
    · simp
    · simp
    · simpa using ih

theorem mapKeys_length {α : Type} (m : GoMap α) : (mapKeys m).length = m.length := by
  simp [mapKeys]

theorem processDataSource_length_le (ep : EnabledPlugins) (st : LoopState) (ds : DataSource) :
    (processDataSource ep st ds).datasources.length ≤ st.datasources.length + 1 := by
  cases h : mapGet ep.DataSources ds.Type_ with
  | none =>
    rw [(processDataSource_skipped ep st ds h).1]
    exact Nat.le_succ _
  | some dsMeta =>
    rw [processDataSource_registered ep st ds dsMeta h]
    exact mapSet_length_le _ _ _

theorem loopFrom_length_le (ep : EnabledPlugins) (L : List DataSource) (st : LoopState) :
    (dataSourcesLoopFrom ep st L).datasources.length ≤ st.datasources.length + L.length := by
  induction L generalizing st with
  | nil => simp [dataSourcesLoopFrom_nil]
  | cons r rest ih =>
    rw [dataSourcesLoopFrom_cons]
    have h1 := ih (processDataSource ep st r)
    have h2 := processDataSource_length_le ep st r
    simp only [List.length_cons]
    omega

theorem mapGet_mapSet_isSome {α : Type} (m : GoMap α) (k k' : String) (v : α)
    (h : (mapGet m k').isSome = true) : (mapGet (mapSet m k v) k').isSome = true := by
  rw [mapGet_mapSet]
  split_ifs
  · rfl
  · exact h

/-- While the loop runs, a non-empty `defaultDatasource` is a key of `datasources`. -/
theorem loopFrom_default_is_key (ep : EnabledPlugins) (L : List DataSource) (st : LoopState)
    (h : st.defaultDatasource = "" ∨
      (mapGet st.datasources st.defaultDatasource).isSome = true) :
    (dataSourcesLoopFrom ep st L).defaultDatasource = "" ∨
      (mapGet (dataSourcesLoopFrom ep st L).datasources
        (dataSourcesLoopFrom ep st L).defaultDatasource).isSome = true := by
  induction L generalizing st with
  | nil => exact h
  | cons r rest ih =>
    rw [dataSourcesLoopFrom_cons]
    apply ih
    cases hr : mapGet ep.DataSources r.Type_ with
    | none =>
      rw [(processDataSource_skipped ep st r hr).1, (processDataSource_skipped ep st r hr).2]
      exact h
    | some rMeta =>
      rw [processDataSource_registered ep st r rMeta hr]
      by_cases hd : r.IsDefault = true
      · right
        simp [hd, mapGet_mapSet]
      · rcases h with h | h
        · left
          simpa [hd] using h
        · right
          simp only [hd, if_false, Bool.false_eq_true]
          exact mapGet_mapSet_isSome _ _ _ _ h

theorem loopFrom_core (ep : EnabledPlugins) (L : List DataSource) (st : LoopState) :
    ((dataSourcesLoopFrom ep st L).datasources, (dataSourcesLoopFrom ep st L).defaultDatasource)
      = L.foldl (processCore ep) (st.datasources, st.defaultDatasource) := by
  induction L generalizing st with
  | nil => rfl
  | cons r rest ih =>
    rw [dataSourcesLoopFrom_cons, ih, List.foldl_cons]
    congr 1
    cases hr : mapGet ep.DataSources r.Type_ with
    | none => simp [processDataSource, processCore, hr]
    | some rMeta => simp [processDataSource, processCore, hr]

theorem eq_of_mem_of_length_le_one {α : Type} (l : List α) (h : l.length ≤ 1) (x y : α)
    (hx : x ∈ l) (hy : y ∈ l) : x = y := by
  match l, h, hx, hy with
  | [a], _, hx, hy =>
    rw [List.mem_singleton] at hx hy
    rw [hx, hy]
  | _ :: _ :: _, h, _, _ =>
    simp only [List.length_cons] at h
    omega

/-- Two iterations of the loop can be swapped when the two records, if both registered,
have different names and are not both flagged default. -/
theorem processCore_comm (ep : EnabledPlugins) (x y : DataSource)
    (hName : isRegistered ep x = true → isRegistered ep y = true → x ≠ y → x.Name ≠ y.Name)
    (hDef : isRegistered ep x = true → isRegistered ep y = true → x ≠ y →
      ¬ (x.IsDefault = true ∧ y.IsDefault = true))
    (z : GoMap (GoMap Atom) × String) :
    processCore ep (processCore ep z x) y = processCore ep (processCore ep z y) x := by
  by_cases hxy : x = y
  · rw [hxy]
  · cases hx : mapGet ep.DataSources x.Type_ with
    | none =>
      cases hy : mapGet ep.DataSources y.Type_ with
      | none => simp [processCore, hx, hy]
      | some my => simp [processCore, hx, hy]
    | some mx =>
      cases hy : mapGet ep.DataSources y.Type_ with
      | none => simp [processCore, hx, hy]
      | some my =>
        have hrx : isRegistered ep x = true := by simp [isRegistered, hx]
        have hry : isRegistered ep y = true := by simp [isRegistered, hy]
        have hn := hName hrx hry hxy
        have hd := hDef hrx hry hxy
        simp only [processCore, hx, hy]
        rw [mapSet_comm _ _ _ _ _ hn]
        congr 1
        by_cases hdx : x.IsDefault = true
        · have hdy : ¬ (y.IsDefault = true) := fun h => hd ⟨hdx, h⟩
          simp [hdx, hdy]
        · simp [hdx]

/-- The whole document returned on success, entry by entry, with its keys in canonical
order. -/
theorem getFrontendSettingsMap_full (w : World) (c : Context) (L : List DataSource)
    (ep : EnabledPlugins) (hL : collectDataSources w c = .ok L)
    (hP : w.GetEnabledPlugins c.OrgId = .ok ep) :
    getFrontendSettingsMap w c = .ok [
      ("alertingEnabled", .atom (.bool w.setting.AlertingEnabled)),
      ("allowOrgCreate",
        .atom (.bool ((w.setting.AllowUserOrgCreate && c.IsSignedIn) || c.IsGrafanaAdmin))),
      ("appSubUrl", .atom (.str w.setting.AppSubUrl)),
      ("authProxyEnabled", .atom (.bool w.setting.AuthProxyEnabled)),
      ("buildInfo", .obj [
        ("buildstamp", .int w.setting.BuildStamp),
        ("commit", .str w.setting.BuildCommit),
        ("env", .str w.setting.Env),
        ("hasUpdate", .bool w.GrafanaHasUpdate),
        ("latestVersion", .str w.GrafanaLatestVersion),
        ("version", .str w.setting.BuildVersion)]),
      ("datasources", .objs
        (mapSet (mapSet (dataSourcesLoop ep L).datasources "-- Grafana --"
          [("meta", .dsMeta (mapGet w.DataSources "grafana")),
            ("name", .str "-- Grafana --"), ("type", .str "grafana")]) "-- Mixed --"
          [("meta", .dsMeta (mapGet w.DataSources "mixed")), ("type", .str "mixed")])),
      ("defaultDatasource", .atom (.str
        (if (dataSourcesLoop ep L).defaultDatasource = "" then "-- Grafana --"
          else (dataSourcesLoop ep L).defaultDatasource))),
      ("ldapEnabled", .atom (.bool w.setting.LdapEnabled)),
      ("panels", .objs
        (ep.Panels.foldl (fun panels panel => mapSet panels panel.Id [
          ("baseUrl", .str panel.BaseUrl),
          ("hideFromList", .bool panel.HideFromList),
          ("id", .str panel.Id),
          ("info", .info panel.Info),
          ("module", .str panel.Module),
          ("name", .str panel.Name),
          ("sort", .int (getPanelSort panel.Id))]) []))] := by
  simp only [getFrontendSettingsMap, hL, hP]
  rfl

/-! ## Claims -/

/-- C1: for every record list and every record in it (at position `i`) whose access mode
is `proxy` and whose type has enabled plugin metadata, the descriptor its loop iteration
stores has `url` equal to "/api/datasources/proxy/" followed by the base-10 rendering of
the record's id, whatever the stored URL and the type tag; and when the name is not a
synthetic key and no later registered record reuses it, that is the `url` of the entry
under the record's name in the `datasources` mapping `getFrontendSettingsMap` returns. -/
theorem proxy_descriptor_url (w : World) (c : Context) (L : List DataSource)
    (ep : EnabledPlugins) (i : Nat) (ds : DataSource) (dsMeta : DataSourcePlugin)
    (hL : collectDataSources w c = .ok L) (hP : w.GetEnabledPlugins c.OrgId = .ok ep)
    (hds : L[i]? = some ds) (hAccess : ds.Access = DS_ACCESS_PROXY)
    (hMeta : mapGet ep.DataSources ds.Type_ = some dsMeta) :
    (∃ dsMap, mapGet (dataSourcesLoop ep (L.take (i + 1))).datasources ds.Name = some dsMap ∧
      mapGet dsMap "url" = some (.str ("/api/datasources/proxy/" ++ FormatInt ds.Id))) ∧
    (ds.Name ≠ "-- Grafana --" → ds.Name ≠ "-- Mixed --" →
      (∀ r ∈ L.drop (i + 1), r.Name = ds.Name → mapGet ep.DataSources r.Type_ = none) →
      ∃ settings dsMap, getFrontendSettingsMap w c = .ok settings ∧
        datasourcesEntry settings ds.Name = some dsMap ∧
        mapGet dsMap "url" = some (.str ("/api/datasources/proxy/" ++ FormatInt ds.Id))) := by
  have hnd : ds.Access ≠ DS_ACCESS_DIRECT := by
    rw [hAccess]
    exact fun h => direct_ne_proxy h.symm
  have hurl : mapGet (dsMapFor dsMeta ds) "url"
      = some (.str ("/api/datasources/proxy/" ++ FormatInt ds.Id)) := by
    rw [dsMapFor_url_not_direct dsMeta ds hnd, effectiveUrl_proxy ds hAccess]
  refine ⟨⟨_, built_descriptor ep L i ds dsMeta hds hMeta, hurl⟩, ?_⟩
  intro hG hM hLater
  obtain ⟨settings, hs, he⟩ := descriptor_visible w c L ep i ds dsMeta hL hP hds hMeta hG hM hLater
  exact ⟨settings, _, hs, he, hurl⟩

/-- C1 at a concrete input: a legacy-influx record with id 7 behind the proxy. -/
theorem proxy_descriptor_url_witness :
    (demoRecord 7 "legacy" "influxdb_08" "proxy" false).Access = DS_ACCESS_PROXY ∧
    ∃ settings dsMap,
      getFrontendSettingsMap (demoWorld [demoRecord 7 "legacy" "influxdb_08" "proxy" false])
        demoContext = .ok settings ∧
      datasourcesEntry settings "legacy" = some dsMap ∧
      mapGet dsMap "url" = some (.str "/api/datasources/proxy/7") :=
  ⟨rfl, (proxy_descriptor_url (demoWorld [demoRecord 7 "legacy" "influxdb_08" "proxy" false])
    demoContext [demoRecord 7 "legacy" "influxdb_08" "proxy" false] demoEnabled 0
    (demoRecord 7 "legacy" "influxdb_08" "proxy" false) (demoPlugin "influxdb_08")
    rfl rfl rfl rfl (by decide)).2 (by decide) (by decide) (by decide)⟩

/-- C2 as stated fails: a record of unregistered type named like a synthetic entry has
its name among the keys of the returned `datasources`. -/
theorem unregistered_name_absent_counterexample :
    demoRecord 9 "-- Grafana --" "nope" "direct" false
        ∈ [demoRecord 9 "-- Grafana --" "nope" "direct" false] ∧
    mapGet demoEnabled.DataSources (demoRecord 9 "-- Grafana --" "nope" "direct" false).Type_
      = none ∧
    ∃ settings m,
      getFrontendSettingsMap (demoWorld [demoRecord 9 "-- Grafana --" "nope" "direct" false])
        demoContext = .ok settings ∧
      mapGet settings "datasources" = some (.objs m) ∧
      (demoRecord 9 "-- Grafana --" "nope" "direct" false).Name ∈ mapKeys m :=
  ⟨by decide, by decide, _, _, rfl, rfl, by decide⟩

/-- C2, amended: for every record list in which a record's type has no matching entry in
the enabled data-source plugin metadata, that record's name is not a key of the
`datasources` mapping `getFrontendSettingsMap` returns, provided the name is neither
"-- Grafana --" nor "-- Mixed --" and no record of the list with a registered type has
the same name. -/
theorem unregistered_name_absent (w : World) (c : Context) (L : List DataSource)
    (ep : EnabledPlugins) (ds : DataSource)
    (hL : collectDataSources w c = .ok L) (hP : w.GetEnabledPlugins c.OrgId = .ok ep)
    (_hds : ds ∈ L) (_hMeta : mapGet ep.DataSources ds.Type_ = none)
    (hG : ds.Name ≠ "-- Grafana --") (hM : ds.Name ≠ "-- Mixed --")
    (hOthers : ∀ r ∈ L, r.Name = ds.Name → mapGet ep.DataSources r.Type_ = none) :
    ∃ settings m, getFrontendSettingsMap w c = .ok settings ∧
      mapGet settings "datasources" = some (.objs m) ∧ ds.Name ∉ mapKeys m := by
  obtain ⟨settings, hs, hd, _⟩ := getFrontendSettingsMap_ok w c L ep hL hP
  refine ⟨settings, _, hs, hd, ?_⟩
  rw [← mapGet_eq_none_iff, mapGet_mapSet_ne _ _ _ _ hM, mapGet_mapSet_ne _ _ _ _ hG]
  exact loopFrom_get_of_no_later ep ds.Name L _ hOthers

/-- C2 (amended) at a concrete input: a registered record and a record of unknown type. -/
theorem unregistered_name_absent_witness :
    mapGet demoEnabled.DataSources (demoRecord 2 "b" "nope" "direct" false).Type_ = none ∧
    ∃ settings m,
      getFrontendSettingsMap (demoWorld [demoRecord 1 "a" "graphite" "proxy" false,
        demoRecord 2 "b" "nope" "direct" false]) demoContext = .ok settings ∧
      mapGet settings "datasources" = some (.objs m) ∧ "b" ∉ mapKeys m :=
  ⟨by decide, unregistered_name_absent
    (demoWorld [demoRecord 1 "a" "graphite" "proxy" false,
      demoRecord 2 "b" "nope" "direct" false]) demoContext
    [demoRecord 1 "a" "graphite" "proxy" false, demoRecord 2 "b" "nope" "direct" false]
    demoEnabled (demoRecord 2 "b" "nope" "direct" false)
    rfl rfl (by decide) (by decide) (by decide) (by decide) (by decide)⟩

/-- C3: skipping a record with unregistered type affects no other record. For every
world, session and record list `L` answered by the data-source query, when the plugin
lookup succeeds `getFrontendSettingsMap` returns the same result on `L` as on `L` with
every record whose type is missing from the enabled data-source plugin metadata removed,
and that result is a settings document, not an error. -/
theorem skip_unregistered_same_result (w : World) (c : Context) (L : List DataSource)
    (ep : EnabledPlugins) (hP : w.GetEnabledPlugins c.OrgId = .ok ep) :
    getFrontendSettingsMap (withRecords w L) c
        = getFrontendSettingsMap (withRecords w (L.filter (isRegistered ep))) c ∧
      ∃ settings, getFrontendSettingsMap (withRecords w L) c = .ok settings := by
  have hP1 : ∀ R, (withRecords w R).GetEnabledPlugins c.OrgId = .ok ep := fun _ => hP
  by_cases h0 : c.OrgId = 0
  · refine ⟨?_, ?_⟩
    · simp [getFrontendSettingsMap, collectDataSources, h0]
      rfl
    · simp only [getFrontendSettingsMap, collectDataSources_withRecords, hP1]
      exact ⟨_, rfl⟩
  · obtain ⟨h1, h2⟩ := loopFrom_filter_registered ep L ⟨[], "", []⟩ ⟨[], "", []⟩ rfl rfl
    refine ⟨?_, ?_⟩
    · simp only [getFrontendSettingsMap, collectDataSources_withRecords, hP1, h0,
        ne_eq, not_false_eq_true, if_true, dataSourcesLoop, h1, h2]
      rfl
    · simp only [getFrontendSettingsMap, collectDataSources_withRecords, hP1]
      exact ⟨_, rfl⟩


/-- C3 at a concrete input: a list of three records whose middle one has an unregistered
type. -/
theorem skip_unregistered_same_result_witness :
    [demoRecord 1 "a" "graphite" "proxy" true, demoRecord 2 "b" "nope" "direct" true,
        demoRecord 3 "c" "influxdb" "direct" false].filter (isRegistered demoEnabled)
      = [demoRecord 1 "a" "graphite" "proxy" true, demoRecord 3 "c" "influxdb" "direct" false] ∧
    getFrontendSettingsMap (withRecords (demoWorld [])
        [demoRecord 1 "a" "graphite" "proxy" true, demoRecord 2 "b" "nope" "direct" true,
          demoRecord 3 "c" "influxdb" "direct" false]) demoContext
      = getFrontendSettingsMap (withRecords (demoWorld [])
        ([demoRecord 1 "a" "graphite" "proxy" true, demoRecord 2 "b" "nope" "direct" true,
          demoRecord 3 "c" "influxdb" "direct" false].filter (isRegistered demoEnabled)))
        demoContext :=
  ⟨by decide, (skip_unregistered_same_result (demoWorld [])  demoContext
    [demoRecord 1 "a" "graphite" "proxy" true, demoRecord 2 "b" "nope" "direct" true,
      demoRecord 3 "c" "influxdb" "direct" false] demoEnabled rfl).1⟩

/-- C4 as stated fails: the only record carrying the default flag has an unregistered
type, so it is skipped before the flag is read and `defaultDatasource` is the sentinel,
not the record's name. -/
theorem default_is_flagged_record_counterexample :
    ([demoRecord 1 "a" "graphite" "proxy" false,
        demoRecord 2 "b" "nope" "direct" true].filter (fun r => r.IsDefault))
      = [demoRecord 2 "b" "nope" "direct" true] ∧
    ∃ settings,
      getFrontendSettingsMap (demoWorld [demoRecord 1 "a" "graphite" "proxy" false,
        demoRecord 2 "b" "nope" "direct" true]) demoContext = .ok settings ∧
      mapGet settings "defaultDatasource" = some (.atom (.str "-- Grafana --")) ∧
      mapGet settings "defaultDatasource"
        ≠ some (.atom (.str (demoRecord 2 "b" "nope" "direct" true).Name)) :=
  ⟨by decide, _, rfl, by decide, by decide⟩

/-- C4, amended: for every record list, if the record at position `i` has the default
flag set, a registered type and a non-empty name, and no later record with a registered
type has the default flag set, then `defaultDatasource` in the result of
`getFrontendSettingsMap` equals that record's name. So with exactly one registered
record flagged default the result is its name, and with several it is the name of the
last one in the input sequence. -/
theorem default_is_last_registered_default (w : World) (c : Context) (L : List DataSource)
    (ep : EnabledPlugins) (i : Nat) (ds : DataSource) (dsMeta : DataSourcePlugin)
    (hL : collectDataSources w c = .ok L) (hP : w.GetEnabledPlugins c.OrgId = .ok ep)
    (hds : L[i]? = some ds) (hDefault : ds.IsDefault = true)
    (hMeta : mapGet ep.DataSources ds.Type_ = some dsMeta) (hName : ds.Name ≠ "")
    (hLater : ∀ r ∈ L.drop (i + 1), r.IsDefault = true → mapGet ep.DataSources r.Type_ = none) :
    ∃ settings, getFrontendSettingsMap w c = .ok settings ∧
      mapGet settings "defaultDatasource" = some (.atom (.str ds.Name)) := by
  obtain ⟨settings, hs, _, hdef⟩ := getFrontendSettingsMap_ok w c L ep hL hP
  refine ⟨settings, hs, ?_⟩
  have hrun : dataSourcesLoop ep L
      = dataSourcesLoopFrom ep (dataSourcesLoop ep (L.take (i + 1))) (L.drop (i + 1)) := by
    conv_lhs => rw [split_after L i]
    exact dataSourcesLoopFrom_append ep _ _ _
  have hloop : (dataSourcesLoop ep L).defaultDatasource = ds.Name := by
    rw [hrun, loopFrom_default_of_no_later ep _ _ hLater, take_succ_of_getElem? L i ds hds,
      dataSourcesLoop_snoc, processDataSource_registered ep _ ds dsMeta hMeta]
    simp [hDefault]
  rw [hdef, hloop]
  simp [hName]

/-- C4 (amended) at a concrete input: two registered records flagged default, then a
flagged record of unknown type; the second record's name wins. -/
theorem default_is_last_registered_default_witness :
    ∃ settings,
      getFrontendSettingsMap (demoWorld [demoRecord 1 "a" "graphite" "proxy" true,
        demoRecord 2 "b" "influxdb" "direct" true, demoRecord 3 "c" "nope" "direct" true])
        demoContext = .ok settings ∧
      mapGet settings "defaultDatasource" = some (.atom (.str "b")) :=
  default_is_last_registered_default
    (demoWorld [demoRecord 1 "a" "graphite" "proxy" true,
      demoRecord 2 "b" "influxdb" "direct" true, demoRecord 3 "c" "nope" "direct" true])
    demoContext
    [demoRecord 1 "a" "graphite" "proxy" true, demoRecord 2 "b" "influxdb" "direct" true,
      demoRecord 3 "c" "nope" "direct" true]
    demoEnabled 1 (demoRecord 2 "b" "influxdb" "direct" true) (demoPlugin "influxdb")
    rfl rfl rfl rfl (by decide) (by decide) (by decide)

/-- C5: for every record list in which no record has the default flag set, the empty
list included, `defaultDatasource` in the result of `getFrontendSettingsMap` is the
sentinel "-- Grafana --". -/
theorem no_default_gives_sentinel (w : World) (c : Context) (L : List DataSource)
    (ep : EnabledPlugins)
    (hL : collectDataSources w c = .ok L) (hP : w.GetEnabledPlugins c.OrgId = .ok ep)
    (hNone : ∀ r ∈ L, r.IsDefault = false) :
    ∃ settings, getFrontendSettingsMap w c = .ok settings ∧
      mapGet settings "defaultDatasource" = some (.atom (.str "-- Grafana --")) := by
  obtain ⟨settings, hs, _, hdef⟩ := getFrontendSettingsMap_ok w c L ep hL hP
  refine ⟨settings, hs, ?_⟩
  have hloop : (dataSourcesLoop ep L).defaultDatasource = "" := by
    unfold dataSourcesLoop
    rw [loopFrom_default_of_no_later ep L _ (fun r hr hd => by
      rw [hNone r hr] at hd
      cases hd)]
  rw [hdef, hloop]
  simp

/-- C5 at a concrete input: two registered records, neither flagged default. -/
theorem no_default_gives_sentinel_witness :
    (∀ r ∈ [demoRecord 1 "a" "graphite" "proxy" false,
      demoRecord 2 "b" "influxdb" "direct" false], r.IsDefault = false) ∧
    ∃ settings,
      getFrontendSettingsMap (demoWorld [demoRecord 1 "a" "graphite" "proxy" false,
        demoRecord 2 "b" "influxdb" "direct" false]) demoContext = .ok settings ∧
      mapGet settings "defaultDatasource" = some (.atom (.str "-- Grafana --")) :=
  ⟨by decide, no_default_gives_sentinel
    (demoWorld [demoRecord 1 "a" "graphite" "proxy" false,
      demoRecord 2 "b" "influxdb" "direct" false]) demoContext
    [demoRecord 1 "a" "graphite" "proxy" false, demoRecord 2 "b" "influxdb" "direct" false]
    demoEnabled rfl rfl (by decide)⟩

/-- C6: when the organization has zero data-source records, because the organization id
is 0 and no query is made or because the query returns the empty sequence, and the
plugin lookup succeeds, the `datasources` mapping `getFrontendSettingsMap` returns has
exactly the two keys "-- Grafana --" and "-- Mixed --", and `defaultDatasource` is
"-- Grafana --". -/
theorem zero_records_two_synthetic_entries (w : World) (c : Context) (ep : EnabledPlugins)
    (hZero : c.OrgId = 0 ∨ w.GetDataSources c.OrgId = .ok [])
    (hP : w.GetEnabledPlugins c.OrgId = .ok ep) :
    ∃ settings m, getFrontendSettingsMap w c = .ok settings ∧
      mapGet settings "datasources" = some (.objs m) ∧
      mapKeys m = ["-- Grafana --", "-- Mixed --"] ∧
      mapGet settings "defaultDatasource" = some (.atom (.str "-- Grafana --")) := by
  have hL : collectDataSources w c = .ok [] := by
    unfold collectDataSources
    rcases hZero with h0 | hq
    · simp [h0]
    · by_cases h0 : c.OrgId = 0
      · simp [h0]
      · simp [h0, hq]
  obtain ⟨settings, hs, hd, hdef⟩ := getFrontendSettingsMap_ok w c [] ep hL hP
  refine ⟨settings, _, hs, hd, ?_, ?_⟩
  · rfl
  · rw [hdef]
    rfl

/-- C6 at a concrete input: a session without organization; the query, which would
answer with a record, is not dispatched. -/
theorem zero_records_two_synthetic_entries_witness :
    ∃ settings m,
      getFrontendSettingsMap (demoWorld [demoRecord 1 "a" "graphite" "proxy" true])
        ⟨0, true, false⟩ = .ok settings ∧
      mapGet settings "datasources" = some (.objs m) ∧
      mapKeys m = ["-- Grafana --", "-- Mixed --"] ∧
      mapGet settings "defaultDatasource" = some (.atom (.str "-- Grafana --")) :=
  zero_records_two_synthetic_entries (demoWorld [demoRecord 1 "a" "graphite" "proxy" true])
    ⟨0, true, false⟩ demoEnabled (Or.inl rfl) rfl

/-- C7: `getFrontendSettingsMap` fails if and only if either the organization id is
non-zero and the data-source query fails, or the enabled-plugin lookup fails. A failing
query (dispatched only for a non-zero organization id) gives back its error unchanged and
no document; otherwise a failing plugin lookup gives back its error unchanged and no
document; otherwise there is no error and the full structure is returned: the document
with its nine top-level entries, given here entry by entry from the record list `L` (empty
when the organization id is 0, the query's answer otherwise) and the plugin set `ep`. With
organization id 0 the query is not dispatched, so its failure cannot fail the call. -/
theorem fails_iff_collaborator_fails (w : World) (c : Context) :
    (∀ err, c.OrgId ≠ 0 → w.GetDataSources c.OrgId = .error err →
      getFrontendSettingsMap w c = .error err) ∧
    (∀ err, (c.OrgId = 0 ∨ ∃ L, w.GetDataSources c.OrgId = .ok L) →
      w.GetEnabledPlugins c.OrgId = .error err →
      getFrontendSettingsMap w c = .error err) ∧
    ((c.OrgId = 0 ∨ ∃ L, w.GetDataSources c.OrgId = .ok L) →
      (∃ ep, w.GetEnabledPlugins c.OrgId = .ok ep) →
      ∃ settings, getFrontendSettingsMap w c = .ok settings ∧
        mapKeys settings = ["alertingEnabled", "allowOrgCreate", "appSubUrl",
          "authProxyEnabled", "buildInfo", "datasources", "defaultDatasource",
          "ldapEnabled", "panels"]) ∧
    (∀ L ep, ((c.OrgId = 0 ∧ L = []) ∨ (c.OrgId ≠ 0 ∧ w.GetDataSources c.OrgId = .ok L)) →
      w.GetEnabledPlugins c.OrgId = .ok ep →
      getFrontendSettingsMap w c = .ok [
        ("alertingEnabled", .atom (.bool w.setting.AlertingEnabled)),
        ("allowOrgCreate",
          .atom (.bool ((w.setting.AllowUserOrgCreate && c.IsSignedIn) || c.IsGrafanaAdmin))),
        ("appSubUrl", .atom (.str w.setting.AppSubUrl)),
        ("authProxyEnabled", .atom (.bool w.setting.AuthProxyEnabled)),
        ("buildInfo", .obj [
          ("buildstamp", .int w.setting.BuildStamp),
          ("commit", .str w.setting.BuildCommit),
          ("env", .str w.setting.Env),
          ("hasUpdate", .bool w.GrafanaHasUpdate),
          ("latestVersion", .str w.GrafanaLatestVersion),
          ("version", .str w.setting.BuildVersion)]),
        ("datasources", .objs
          (mapSet (mapSet (dataSourcesLoop ep L).datasources "-- Grafana --"
            [("meta", .dsMeta (mapGet w.DataSources "grafana")),
              ("name", .str "-- Grafana --"), ("type", .str "grafana")]) "-- Mixed --"
            [("meta", .dsMeta (mapGet w.DataSources "mixed")), ("type", .str "mixed")])),
        ("defaultDatasource", .atom (.str
          (if (dataSourcesLoop ep L).defaultDatasource = "" then "-- Grafana --"
            else (dataSourcesLoop ep L).defaultDatasource))),
        ("ldapEnabled", .atom (.bool w.setting.LdapEnabled)),
        ("panels", .objs
          (ep.Panels.foldl (fun panels panel => mapSet panels panel.Id [
            ("baseUrl", .str panel.BaseUrl),
            ("hideFromList", .bool panel.HideFromList),
            ("id", .str panel.Id),
            ("info", .info panel.Info),
            ("module", .str panel.Module),
            ("name", .str panel.Name),
            ("sort", .int (getPanelSort panel.Id))]) []))]) ∧
    ((∃ err, getFrontendSettingsMap w c = .error err) ↔
      ((c.OrgId ≠ 0 ∧ ∃ err, w.GetDataSources c.OrgId = .error err) ∨
        ∃ err, w.GetEnabledPlugins c.OrgId = .error err)) := by
  have hcollect : ∀ L, ((c.OrgId = 0 ∧ L = []) ∨
      (c.OrgId ≠ 0 ∧ w.GetDataSources c.OrgId = .ok L)) → collectDataSources w c = .ok L := by
    intro L h
    unfold collectDataSources
    rcases h with ⟨h0, hnil⟩ | ⟨h0, hq⟩
    · simp [h0, hnil]
    · simp [h0, hq]
  have hfail : (∀ err, c.OrgId ≠ 0 → w.GetDataSources c.OrgId = .error err →
        getFrontendSettingsMap w c = .error err) ∧
      (∀ err, (c.OrgId = 0 ∨ ∃ L, w.GetDataSources c.OrgId = .ok L) →
        w.GetEnabledPlugins c.OrgId = .error err →
        getFrontendSettingsMap w c = .error err) ∧
      ((∃ err, getFrontendSettingsMap w c = .error err) ↔
        ((c.OrgId ≠ 0 ∧ ∃ err, w.GetDataSources c.OrgId = .error err) ∨
          ∃ err, w.GetEnabledPlugins c.OrgId = .error err)) := by
    obtain ⟨o, signedIn, admin⟩ := c
    by_cases h0 : o = 0
    · subst h0
      cases hp : w.GetEnabledPlugins 0 with
      | error e' => simp [getFrontendSettingsMap, collectDataSources, hp]
      | ok ep => simp [getFrontendSettingsMap, collectDataSources, hp]
    · cases hq : w.GetDataSources o with
      | error e => simp [getFrontendSettingsMap, collectDataSources, h0, hq]
      | ok L =>
        cases hp : w.GetEnabledPlugins o with
        | error e' => simp [getFrontendSettingsMap, collectDataSources, h0, hq, hp]
        | ok ep => simp [getFrontendSettingsMap, collectDataSources, h0, hq, hp]
  refine ⟨hfail.1, hfail.2.1, ?_, ?_, hfail.2.2⟩
  · rintro hq ⟨ep, hP⟩
    have hL : ∃ L, collectDataSources w c = .ok L := by
      by_cases h0 : c.OrgId = 0
      · exact ⟨[], hcollect [] (Or.inl ⟨h0, rfl⟩)⟩
      · rcases hq with h | ⟨L, hL⟩
        · exact absurd h h0
        · exact ⟨L, hcollect L (Or.inr ⟨h0, hL⟩)⟩
    obtain ⟨L, hL⟩ := hL
    exact ⟨_, getFrontendSettingsMap_full w c L ep hL hP, rfl⟩
  · intro L ep hq hP
    exact getFrontendSettingsMap_full w c L ep (hcollect L hq) hP

/-- C7 at concrete inputs: with a failing query, organization 1 gets the query's error
and no document, and organization 0, for which the query is not dispatched, gets the
full document with the two synthetic data sources and the sentinel default. -/
theorem fails_iff_collaborator_fails_witness :
    getFrontendSettingsMap failingQueryWorld ⟨1, true, false⟩
      = .error ⟨"database is locked"⟩ ∧
    getFrontendSettingsMap failingQueryWorld ⟨0, true, false⟩ = .ok [
      ("alertingEnabled", .atom (.bool false)),
      ("allowOrgCreate", .atom (.bool false)),
      ("appSubUrl", .atom (.str "")),
      ("authProxyEnabled", .atom (.bool false)),
      ("buildInfo", .obj [("buildstamp", .int 0), ("commit", .str ""), ("env", .str ""),
        ("hasUpdate", .bool false), ("latestVersion", .str ""), ("version", .str "")]),
      ("datasources", .objs [
        ("-- Grafana --", [("meta", .dsMeta none), ("name", .str "-- Grafana --"),
          ("type", .str "grafana")]),
        ("-- Mixed --", [("meta", .dsMeta none), ("type", .str "mixed")])]),
      ("defaultDatasource", .atom (.str "-- Grafana --")),
      ("ldapEnabled", .atom (.bool false)),
      ("panels", .objs [
        ("graph", [("baseUrl", .str "b"), ("hideFromList", .bool false), ("id", .str "graph"),
          ("info", .info ⟨"", ""⟩), ("module", .str "m"), ("name", .str "Graph"),
          ("sort", .int 1)]),
        ("heatmap", [("baseUrl", .str "b"), ("hideFromList", .bool false),
          ("id", .str "heatmap"), ("info", .info ⟨"", ""⟩), ("module", .str "m"),
          ("name", .str "Heatmap"), ("sort", .int 100)])])] :=
  ⟨(fails_iff_collaborator_fails failingQueryWorld ⟨1, true, false⟩).1
      ⟨"database is locked"⟩ (by decide) rfl,
    (fails_iff_collaborator_fails failingQueryWorld ⟨0, true, false⟩).2.2.2.1
      [] demoEnabled (Or.inl ⟨rfl, rfl⟩) rfl⟩

/-- C8: for every record (at position `i` of the record list) with access mode `direct`,
the basic-auth flag set and registered plugin metadata, the descriptor its loop iteration
stores has `basicAuth` equal to `util.GetBasicAuthHeader(BasicAuthUser,
BasicAuthPassword)`, which is "Basic " followed by the base64 encoding of `user:pass`;
and when the name is not a synthetic key and no later registered record reuses it, that
is the `basicAuth` of the record's entry in the returned `datasources`. -/
theorem direct_basic_auth_header (w : World) (c : Context) (L : List DataSource)
    (ep : EnabledPlugins) (i : Nat) (ds : DataSource) (dsMeta : DataSourcePlugin)
    (hL : collectDataSources w c = .ok L) (hP : w.GetEnabledPlugins c.OrgId = .ok ep)
    (hds : L[i]? = some ds) (hAccess : ds.Access = DS_ACCESS_DIRECT)
    (hBasic : ds.BasicAuth = true)
    (hMeta : mapGet ep.DataSources ds.Type_ = some dsMeta) :
    (∃ dsMap, mapGet (dataSourcesLoop ep (L.take (i + 1))).datasources ds.Name = some dsMap ∧
      mapGet dsMap "basicAuth"
        = some (.str (GetBasicAuthHeader ds.BasicAuthUser ds.BasicAuthPassword))) ∧
    GetBasicAuthHeader ds.BasicAuthUser ds.BasicAuthPassword
      = "Basic " ++ base64OfString (ds.BasicAuthUser ++ ":" ++ ds.BasicAuthPassword) ∧
    (ds.Name ≠ "-- Grafana --" → ds.Name ≠ "-- Mixed --" →
      (∀ r ∈ L.drop (i + 1), r.Name = ds.Name → mapGet ep.DataSources r.Type_ = none) →
      ∃ settings dsMap, getFrontendSettingsMap w c = .ok settings ∧
        datasourcesEntry settings ds.Name = some dsMap ∧
        mapGet dsMap "basicAuth" = some (.str
          ("Basic " ++ base64OfString (ds.BasicAuthUser ++ ":" ++ ds.BasicAuthPassword)))) := by
  have hval := dsMapFor_basicAuth dsMeta ds hAccess hBasic
  refine ⟨⟨_, built_descriptor ep L i ds dsMeta hds hMeta, hval⟩, rfl, ?_⟩
  intro hG hM hLater
  obtain ⟨settings, hs, he⟩ := descriptor_visible w c L ep i ds dsMeta hL hP hds hMeta hG hM hLater
  exact ⟨settings, _, hs, he, hval⟩

/-- C8 at a concrete input: user `user`, password `pass`, direct access. -/
theorem direct_basic_auth_header_witness :
    (demoRecord 3 "g" "graphite" "direct" false).BasicAuth = true ∧
    ∃ settings dsMap,
      getFrontendSettingsMap (demoWorld [demoRecord 3 "g" "graphite" "direct" false])
        demoContext = .ok settings ∧
      datasourcesEntry settings "g" = some dsMap ∧
      mapGet dsMap "basicAuth" = some (.str "Basic dXNlcjpwYXNz") :=
  ⟨rfl, (direct_basic_auth_header (demoWorld [demoRecord 3 "g" "graphite" "direct" false])
    demoContext [demoRecord 3 "g" "graphite" "direct" false] demoEnabled 0
    (demoRecord 3 "g" "graphite" "direct" false) (demoPlugin "graphite")
    rfl rfl rfl rfl rfl (by decide)).2.2 (by decide) (by decide) (by decide)⟩

/-- C9: for every record (at position `i` of the record list) of the legacy time-series
type `influxdb_08` with access mode `direct` and registered plugin metadata, the
descriptor its loop iteration stores has `url` equal to the effective URL, which is the
stored URL, followed by "/db/" and the database name, `username` equal to the record's
user and `password` equal to the record's password; and when the name is not a synthetic
key and no later registered record reuses it, these are the fields of the record's entry
in the returned `datasources`. -/
theorem influxdb08_direct_descriptor (w : World) (c : Context) (L : List DataSource)
    (ep : EnabledPlugins) (i : Nat) (ds : DataSource) (dsMeta : DataSourcePlugin)
    (hL : collectDataSources w c = .ok L) (hP : w.GetEnabledPlugins c.OrgId = .ok ep)
    (hds : L[i]? = some ds) (hType : ds.Type_ = DS_INFLUXDB_08)
    (hAccess : ds.Access = DS_ACCESS_DIRECT)
    (hMeta : mapGet ep.DataSources ds.Type_ = some dsMeta) :
    effectiveUrl ds = ds.Url ∧
    (∃ dsMap, mapGet (dataSourcesLoop ep (L.take (i + 1))).datasources ds.Name = some dsMap ∧
      mapGet dsMap "url" = some (.str (effectiveUrl ds ++ "/db/" ++ ds.Database)) ∧
      mapGet dsMap "username" = some (.str ds.User) ∧
      mapGet dsMap "password" = some (.str ds.Password)) ∧
    (ds.Name ≠ "-- Grafana --" → ds.Name ≠ "-- Mixed --" →
      (∀ r ∈ L.drop (i + 1), r.Name = ds.Name → mapGet ep.DataSources r.Type_ = none) →
      ∃ settings dsMap, getFrontendSettingsMap w c = .ok settings ∧
        datasourcesEntry settings ds.Name = some dsMap ∧
        mapGet dsMap "url" = some (.str (ds.Url ++ "/db/" ++ ds.Database)) ∧
        mapGet dsMap "username" = some (.str ds.User) ∧
        mapGet dsMap "password" = some (.str ds.Password)) := by
  have hnp : ds.Access ≠ DS_ACCESS_PROXY := by
    rw [hAccess]
    exact direct_ne_proxy
  have heff := effectiveUrl_not_proxy ds hnp
  have hval := dsMapFor_influxdb08_direct dsMeta ds hType hAccess
  refine ⟨heff, ⟨_, built_descriptor ep L i ds dsMeta hds hMeta, hval⟩, ?_⟩
  intro hG hM hLater
  obtain ⟨settings, hs, he⟩ := descriptor_visible w c L ep i ds dsMeta hL hP hds hMeta hG hM hLater
  rw [heff] at hval
  exact ⟨settings, _, hs, he, hval⟩

/-- C9 at a concrete input: stored URL `http://db:8086`, database `metrics`. -/
theorem influxdb08_direct_descriptor_witness :
    (demoRecord 4 "old" "influxdb_08" "direct" false).Type_ = DS_INFLUXDB_08 ∧
    ∃ settings dsMap,
      getFrontendSettingsMap (demoWorld [demoRecord 4 "old" "influxdb_08" "direct" false])
        demoContext = .ok settings ∧
      datasourcesEntry settings "old" = some dsMap ∧
      mapGet dsMap "url" = some (.str "http://db:8086/db/metrics") ∧
      mapGet dsMap "username" = some (.str "u") ∧
      mapGet dsMap "password" = some (.str "pw") :=
  ⟨rfl, (influxdb08_direct_descriptor
    (demoWorld [demoRecord 4 "old" "influxdb_08" "direct" false])
    demoContext [demoRecord 4 "old" "influxdb_08" "direct" false] demoEnabled 0
    (demoRecord 4 "old" "influxdb_08" "direct" false) (demoPlugin "influxdb_08")
    rfl rfl rfl rfl rfl (by decide)).2.2 (by decide) (by decide) (by decide)⟩

/-- C10: for every record (at position `i` of the record list) of the current
time-series type `influxdb` with registered plugin metadata, the descriptor its loop
iteration stores has `database` equal to the record's database name for every access
mode; when the access mode is `direct` it also has `username` and `password` (the record's
user and password) and its `url` is the effective URL, the stored URL, with nothing
appended; when the access mode is not `direct` it has neither `username` nor `password`.
When the name is not a synthetic key and no later registered record reuses it, this
descriptor is the record's entry in the returned `datasources`. -/
theorem influxdb_descriptor (w : World) (c : Context) (L : List DataSource)
    (ep : EnabledPlugins) (i : Nat) (ds : DataSource) (dsMeta : DataSourcePlugin)
    (hL : collectDataSources w c = .ok L) (hP : w.GetEnabledPlugins c.OrgId = .ok ep)
    (hds : L[i]? = some ds) (hType : ds.Type_ = DS_INFLUXDB)
    (hMeta : mapGet ep.DataSources ds.Type_ = some dsMeta) :
    ∃ dsMap, mapGet (dataSourcesLoop ep (L.take (i + 1))).datasources ds.Name = some dsMap ∧
      mapGet dsMap "database" = some (.str ds.Database) ∧
      (ds.Access = DS_ACCESS_DIRECT →
        mapGet dsMap "username" = some (.str ds.User) ∧
        mapGet dsMap "password" = some (.str ds.Password) ∧
        mapGet dsMap "url" = some (.str (effectiveUrl ds)) ∧ effectiveUrl ds = ds.Url) ∧
      (ds.Access ≠ DS_ACCESS_DIRECT →
        mapGet dsMap "username" = none ∧ mapGet dsMap "password" = none) ∧
      (ds.Name ≠ "-- Grafana --" → ds.Name ≠ "-- Mixed --" →
        (∀ r ∈ L.drop (i + 1), r.Name = ds.Name → mapGet ep.DataSources r.Type_ = none) →
        ∃ settings, getFrontendSettingsMap w c = .ok settings ∧
          datasourcesEntry settings ds.Name = some dsMap) := by
  obtain ⟨hdb, hdirect, hother⟩ := dsMapFor_influxdb dsMeta ds hType
  refine ⟨_, built_descriptor ep L i ds dsMeta hds hMeta, hdb, ?_, hother, ?_⟩
  · intro hAccess
    obtain ⟨hu, hp, hurl⟩ := hdirect hAccess
    have hnp : ds.Access ≠ DS_ACCESS_PROXY := by
      rw [hAccess]
      exact direct_ne_proxy
    exact ⟨hu, hp, hurl, effectiveUrl_not_proxy ds hnp⟩
  · intro hG hM hLater
    exact descriptor_visible w c L ep i ds dsMeta hL hP hds hMeta hG hM hLater

/-- C10 at a concrete input: an `influxdb` record behind the proxy keeps `database` and
carries no credentials. -/
theorem influxdb_descriptor_witness :
    (demoRecord 5 "flux" "influxdb" "proxy" false).Type_ = DS_INFLUXDB ∧
    ∃ dsMap,
      mapGet (dataSourcesLoop demoEnabled
        ([demoRecord 5 "flux" "influxdb" "proxy" false].take (0 + 1))).datasources "flux"
        = some dsMap ∧
      mapGet dsMap "database" = some (.str "metrics") ∧
      mapGet dsMap "username" = none ∧ mapGet dsMap "password" = none ∧
      ∃ settings,
        getFrontendSettingsMap (demoWorld [demoRecord 5 "flux" "influxdb" "proxy" false])
          demoContext = .ok settings ∧
        datasourcesEntry settings "flux" = some dsMap := by
  obtain ⟨dsMap, hb, hdb, _, hother, hvis⟩ := influxdb_descriptor
    (demoWorld [demoRecord 5 "flux" "influxdb" "proxy" false])
    demoContext [demoRecord 5 "flux" "influxdb" "proxy" false] demoEnabled 0
    (demoRecord 5 "flux" "influxdb" "proxy" false) (demoPlugin "influxdb")
    rfl rfl rfl rfl (by decide)
  exact ⟨rfl, dsMap, hb, hdb, (hother (by decide)).1, (hother (by decide)).2,
    hvis (by decide) (by decide) (by decide)⟩

/-- C11: `getPanelSort` implements exactly the fixed rank table: 1 for "graph", 2 for
"singlestat", 3 for "table", 4 for "text", 5 for "alertlist", 6 for "dashlist", and 100
for every other string, such as "heatmap", the empty string or "Graph"; so the rank is
below 100 if and only if the id is one of the six listed ids, and the six listed ids get
pairwise distinct ranks. -/
theorem panel_sort_table :
    getPanelSort "graph" = 1 ∧ getPanelSort "singlestat" = 2 ∧ getPanelSort "table" = 3 ∧
    getPanelSort "text" = 4 ∧ getPanelSort "alertlist" = 5 ∧ getPanelSort "dashlist" = 6 ∧
    (∀ id, id ∉ ["graph", "singlestat", "table", "text", "alertlist", "dashlist"] →
      getPanelSort id = 100) ∧
    getPanelSort "heatmap" = 100 ∧ getPanelSort "" = 100 ∧ getPanelSort "Graph" = 100 ∧
    (∀ id, getPanelSort id < 100 ↔
      id ∈ ["graph", "singlestat", "table", "text", "alertlist", "dashlist"]) ∧
    (∀ a ∈ ["graph", "singlestat", "table", "text", "alertlist", "dashlist"],
      ∀ b ∈ ["graph", "singlestat", "table", "text", "alertlist", "dashlist"],
      getPanelSort a = getPanelSort b → a = b) := by
  refine ⟨by decide, by decide, by decide, by decide, by decide, by decide, ?_,
    by decide, by decide, by decide, ?_, by decide⟩
  · intro id hid
    simp only [List.mem_cons, List.mem_singleton, List.not_mem_nil, or_false, not_or] at hid
    obtain ⟨h1, h2, h3, h4, h5, h6⟩ := hid
    simp [getPanelSort, h1, h2, h3, h4, h5, h6]
  · intro id
    unfold getPanelSort
    split_ifs with h1 h2 h3 h4 h5 h6 <;> simp [*]

/-- C11 at concrete inputs: an unlisted id gets rank 100, and "text" is the only listed
id of rank 4. -/
theorem panel_sort_table_witness :
    getPanelSort "piechart" = 100 ∧ ¬ (getPanelSort "piechart" < 100) ∧
    (getPanelSort "text" = getPanelSort "text" → "text" = "text") :=
  ⟨panel_sort_table.2.2.2.2.2.2.1 "piechart" (by decide),
    fun h => absurd ((panel_sort_table.2.2.2.2.2.2.2.2.2.2.1 "piechart").1 h) (by decide),
    panel_sort_table.2.2.2.2.2.2.2.2.2.2.2 "text" (by decide) "text" (by decide)⟩

/-- C12: the two synthetic entries are added unconditionally. For every record list,
also one with records named "-- Grafana --" or "-- Mixed --", for which
`getFrontendSettingsMap` succeeds, the entry of `datasources` under "-- Grafana --" has
exactly the fields `meta`, `name` and `type`, with type "grafana", name "-- Grafana --"
and the registry's metadata for "grafana", and the entry under "-- Mixed --" has exactly
the fields `meta` and `type`, with type "mixed" and the registry's metadata for "mixed",
and no `name` field. -/
theorem synthetic_entries_unconditional (w : World) (c : Context) (L : List DataSource)
    (ep : EnabledPlugins) (hL : collectDataSources w c = .ok L)
    (hP : w.GetEnabledPlugins c.OrgId = .ok ep) :
    ∃ settings g mx, getFrontendSettingsMap w c = .ok settings ∧
      datasourcesEntry settings "-- Grafana --" = some g ∧
      mapKeys g = ["meta", "name", "type"] ∧
      mapGet g "type" = some (.str "grafana") ∧
      mapGet g "name" = some (.str "-- Grafana --") ∧
      mapGet g "meta" = some (.dsMeta (mapGet w.DataSources "grafana")) ∧
      datasourcesEntry settings "-- Mixed --" = some mx ∧
      mapKeys mx = ["meta", "type"] ∧
      mapGet mx "type" = some (.str "mixed") ∧
      mapGet mx "meta" = some (.dsMeta (mapGet w.DataSources "mixed")) ∧
      mapGet mx "name" = none := by
  obtain ⟨settings, hs, hd, _⟩ := getFrontendSettingsMap_ok w c L ep hL hP
  refine ⟨settings,
    mapLit [("type", .str "grafana"), ("name", .str "-- Grafana --"),
      ("meta", .dsMeta (mapGet w.DataSources "grafana"))],
    mapLit [("type", .str "mixed"), ("meta", .dsMeta (mapGet w.DataSources "mixed"))],
    hs, ?_, rfl, rfl, rfl, rfl, ?_, rfl, rfl, rfl, rfl⟩
  · simp only [datasourcesEntry, hd]
    rw [mapGet_mapSet_ne _ _ _ _ (by decide), mapGet_mapSet_self]
  · simp only [datasourcesEntry, hd]
    rw [mapGet_mapSet_self]

/-- C12 at a concrete input: records named like the synthetic entries are overwritten. -/
theorem synthetic_entries_unconditional_witness :
    ∃ settings g mx,
      getFrontendSettingsMap (demoWorld [demoRecord 1 "-- Grafana --" "graphite" "proxy" true,
        demoRecord 2 "-- Mixed --" "influxdb" "direct" false]) demoContext = .ok settings ∧
      datasourcesEntry settings "-- Grafana --" = some g ∧
      mapKeys g = ["meta", "name", "type"] ∧
      mapGet g "type" = some (.str "grafana") ∧
      datasourcesEntry settings "-- Mixed --" = some mx ∧
      mapKeys mx = ["meta", "type"] ∧
      mapGet mx "name" = none := by
  obtain ⟨settings, g, mx, hs, hg, hgk, hgt, _, _, hm, hmk, _, _, hmn⟩ :=
    synthetic_entries_unconditional
      (demoWorld [demoRecord 1 "-- Grafana --" "graphite" "proxy" true,
        demoRecord 2 "-- Mixed --" "influxdb" "direct" false]) demoContext
      [demoRecord 1 "-- Grafana --" "graphite" "proxy" true,
        demoRecord 2 "-- Mixed --" "influxdb" "direct" false] demoEnabled rfl rfl
  exact ⟨settings, g, mx, hs, hg, hgk, hgt, hm, hmk, hmn⟩

/-- C13 as stated fails: a record whose extension JSON data is present but empty still
gets the `jsonData` field. -/
theorem json_data_iff_nonempty_counterexample :
    (demoRecordJson "a" (some ⟨[]⟩)).JsonData = some ⟨[]⟩ ∧
    (⟨[]⟩ : Json).fields = [] ∧
    ∃ settings dsMap,
      getFrontendSettingsMap (demoWorld [demoRecordJson "a" (some ⟨[]⟩)]) demoContext
        = .ok settings ∧
      datasourcesEntry settings "a" = some dsMap ∧
      mapGet dsMap "jsonData" = some (.json ⟨[]⟩) :=
  ⟨rfl, rfl, _, _, rfl, rfl, by decide⟩

/-- C13, amended: for every record (at position `i` of the record list) with registered
plugin metadata, the descriptor its loop iteration stores contains the `jsonData` field
if and only if the record's extension JSON data is present, that is the pointer is not
nil, whether or not the document is empty; when present the field's value is the
record's extension data unchanged. When the name is not a synthetic key and no later
registered record reuses it, this descriptor is the record's entry in the returned
`datasources`. -/
theorem json_data_iff_present (w : World) (c : Context) (L : List DataSource)
    (ep : EnabledPlugins) (i : Nat) (ds : DataSource) (dsMeta : DataSourcePlugin)
    (hL : collectDataSources w c = .ok L) (hP : w.GetEnabledPlugins c.OrgId = .ok ep)
    (hds : L[i]? = some ds) (hMeta : mapGet ep.DataSources ds.Type_ = some dsMeta) :
    ∃ dsMap, mapGet (dataSourcesLoop ep (L.take (i + 1))).datasources ds.Name = some dsMap ∧
      ((mapGet dsMap "jsonData").isSome = true ↔ ds.JsonData ≠ none) ∧
      (∀ j, ds.JsonData = some j → mapGet dsMap "jsonData" = some (.json j)) ∧
      (ds.Name ≠ "-- Grafana --" → ds.Name ≠ "-- Mixed --" →
        (∀ r ∈ L.drop (i + 1), r.Name = ds.Name → mapGet ep.DataSources r.Type_ = none) →
        ∃ settings, getFrontendSettingsMap w c = .ok settings ∧
          datasourcesEntry settings ds.Name = some dsMap) := by
  have hj := dsMapFor_jsonData dsMeta ds
  refine ⟨_, built_descriptor ep L i ds dsMeta hds hMeta, ?_, ?_, ?_⟩
  · rw [hj]
    cases ds.JsonData <;> simp
  · intro j hjs
    rw [hj, hjs]
    rfl
  · intro hG hM hLater
    exact descriptor_visible w c L ep i ds dsMeta hL hP hds hMeta hG hM hLater

/-- C13 (amended) at a concrete input: a record without extension data gets no
`jsonData` field. -/
theorem json_data_iff_present_witness :
    ∃ dsMap,
      mapGet (dataSourcesLoop demoEnabled
        ([demoRecordJson "a" none].take (0 + 1))).datasources "a" = some dsMap ∧
      ¬ ((mapGet dsMap "jsonData").isSome = true) ∧
      ∃ settings,
        getFrontendSettingsMap (demoWorld [demoRecordJson "a" none]) demoContext
          = .ok settings ∧
        datasourcesEntry settings "a" = some dsMap := by
  obtain ⟨dsMap, hb, hiff, _, hvis⟩ := json_data_iff_present
    (demoWorld [demoRecordJson "a" none]) demoContext [demoRecordJson "a" none] demoEnabled 0
    (demoRecordJson "a" none) (demoPlugin "graphite") rfl rfl rfl (by decide)
  exact ⟨dsMap, hb, fun h => (hiff.1 h) rfl, hvis (by decide) (by decide) (by decide)⟩

/-- C14: whenever `getFrontendSettingsMap` succeeds, the returned mapping has exactly the
nine top-level keys alertingEnabled, allowOrgCreate, appSubUrl, authProxyEnabled,
buildInfo, datasources, defaultDatasource, ldapEnabled and panels (listed in the map's
canonical key order), and `buildInfo` is a mapping with exactly the six keys buildstamp,
commit, env, hasUpdate, latestVersion and version, whatever the records, plugins and
session. -/
theorem fixed_top_level_keys (w : World) (c : Context) (settings : GoMap Value)
    (h : getFrontendSettingsMap w c = .ok settings) :
    mapKeys settings = ["alertingEnabled", "allowOrgCreate", "appSubUrl",
      "authProxyEnabled", "buildInfo", "datasources", "defaultDatasource", "ldapEnabled",
      "panels"] ∧
    ∃ buildInfo, mapGet settings "buildInfo" = some (.obj buildInfo) ∧
      mapKeys buildInfo = ["buildstamp", "commit", "env", "hasUpdate", "latestVersion",
        "version"] := by
  obtain ⟨L, ep, hL, hP⟩ := ok_inputs w c settings h
  obtain ⟨settings', buildInfo, hs, hk, hb, hbk⟩ := getFrontendSettingsMap_keys w c L ep hL hP
  rw [h] at hs
  cases hs
  exact ⟨hk, buildInfo, hb, hbk⟩

/-- C14 at a concrete input: three records, one of them skipped. -/
theorem fixed_top_level_keys_witness :
    ∃ settings,
      getFrontendSettingsMap (demoWorld [demoRecord 1 "a" "graphite" "proxy" true,
        demoRecord 2 "b" "nope" "direct" true]) demoContext = .ok settings ∧
      mapKeys settings = ["alertingEnabled", "allowOrgCreate", "appSubUrl",
        "authProxyEnabled", "buildInfo", "datasources", "defaultDatasource", "ldapEnabled",
        "panels"] :=
  ⟨_, rfl, (fixed_top_level_keys (demoWorld [demoRecord 1 "a" "graphite" "proxy" true,
    demoRecord 2 "b" "nope" "direct" true]) demoContext _ rfl).1⟩

/-- C15: credential redaction for non-direct access. For every record (at position `i`
of the record list) whose access mode is not `direct`, `proxy` in particular, and whose
type is registered, the descriptor its loop iteration stores has none of the fields
`basicAuth`, `withCredentials`, `username`, `password`; and the whole result of
`getFrontendSettingsMap` is the same for two record lists that differ only in the stored
basic-auth user, basic-auth password, user and password of records whose access mode is
not `direct`. -/
theorem hidden_credentials_not_emitted (w : World) (c : Context) (L L' : List DataSource)
    (ep : EnabledPlugins) (hP : w.GetEnabledPlugins c.OrgId = .ok ep)
    (hRel : List.Forall₂ sameUpToHiddenCredentials L L') :
    (∀ i ds dsMeta, L[i]? = some ds → ds.Access ≠ DS_ACCESS_DIRECT →
      mapGet ep.DataSources ds.Type_ = some dsMeta →
      ∃ dsMap, mapGet (dataSourcesLoop ep (L.take (i + 1))).datasources ds.Name = some dsMap ∧
        mapGet dsMap "basicAuth" = none ∧ mapGet dsMap "withCredentials" = none ∧
        mapGet dsMap "username" = none ∧ mapGet dsMap "password" = none) ∧
    getFrontendSettingsMap (withRecords w L) c
      = getFrontendSettingsMap (withRecords w L') c := by
  refine ⟨?_, ?_⟩
  · intro i ds dsMeta hds hA hMeta
    exact ⟨_, built_descriptor ep L i ds dsMeta hds hMeta, dsMapFor_no_credentials dsMeta ds hA⟩
  · have hloop : dataSourcesLoop ep L' = dataSourcesLoop ep L := loopFrom_hidden ep L L' hRel _
    exact result_of_loop_eq w c L L' ep hP (by rw [hloop]) (by rw [hloop])

/-- C15 at a concrete input: a proxied record with basic auth switched on, and the same
record with other credentials. -/
theorem hidden_credentials_not_emitted_witness :
    (∃ dsMap,
      mapGet (dataSourcesLoop demoEnabled
        ([demoRecord 7 "g" "graphite" "proxy" false].take (0 + 1))).datasources "g"
        = some dsMap ∧
      mapGet dsMap "basicAuth" = none ∧ mapGet dsMap "password" = none) ∧
    getFrontendSettingsMap (withRecords (demoWorld [])
        [demoRecord 7 "g" "graphite" "proxy" false]) demoContext
      = getFrontendSettingsMap (withRecords (demoWorld [])
        [setCredentials (demoRecord 7 "g" "graphite" "proxy" false)
          "root" "hunter2" "admin" "secret"]) demoContext := by
  obtain ⟨hfields, hsame⟩ := hidden_credentials_not_emitted (demoWorld []) demoContext
    [demoRecord 7 "g" "graphite" "proxy" false]
    [setCredentials (demoRecord 7 "g" "graphite" "proxy" false)
      "root" "hunter2" "admin" "secret"] demoEnabled rfl
    (List.Forall₂.cons (Or.inr ⟨by decide, rfl⟩) List.Forall₂.nil)
  obtain ⟨dsMap, hb, h1, _, _, h4⟩ := hfields 0 (demoRecord 7 "g" "graphite" "proxy" false)
    (demoPlugin "graphite") rfl (by decide) (by decide)
  exact ⟨⟨dsMap, hb, h1, h4⟩, hsame⟩

/-- C16: for every record (at position `i` of the record list) with registered plugin
metadata, the descriptor its loop iteration stores has `directUrl` equal to the record's
stored URL when the type is `prometheus`, for every access mode; for access mode `proxy`
its `url` is then the synthesized proxy path while `directUrl` is still the stored URL;
and the descriptor of a record of any other type has no `directUrl`. When the name is
not a synthetic key and no later registered record reuses it, this descriptor is the
record's entry in the returned `datasources`. -/
theorem prometheus_direct_url (w : World) (c : Context) (L : List DataSource)
    (ep : EnabledPlugins) (i : Nat) (ds : DataSource) (dsMeta : DataSourcePlugin)
    (hL : collectDataSources w c = .ok L) (hP : w.GetEnabledPlugins c.OrgId = .ok ep)
    (hds : L[i]? = some ds) (hMeta : mapGet ep.DataSources ds.Type_ = some dsMeta) :
    ∃ dsMap, mapGet (dataSourcesLoop ep (L.take (i + 1))).datasources ds.Name = some dsMap ∧
      (ds.Type_ = DS_PROMETHEUS → mapGet dsMap "directUrl" = some (.str ds.Url)) ∧
      (ds.Type_ = DS_PROMETHEUS → ds.Access = DS_ACCESS_PROXY →
        mapGet dsMap "url" = some (.str ("/api/datasources/proxy/" ++ FormatInt ds.Id)) ∧
        mapGet dsMap "directUrl" = some (.str ds.Url)) ∧
      (ds.Type_ ≠ DS_PROMETHEUS → mapGet dsMap "directUrl" = none) ∧
      (ds.Name ≠ "-- Grafana --" → ds.Name ≠ "-- Mixed --" →
        (∀ r ∈ L.drop (i + 1), r.Name = ds.Name → mapGet ep.DataSources r.Type_ = none) →
        ∃ settings, getFrontendSettingsMap w c = .ok settings ∧
          datasourcesEntry settings ds.Name = some dsMap) := by
  have hd := dsMapFor_directUrl dsMeta ds
  refine ⟨_, built_descriptor ep L i ds dsMeta hds hMeta, ?_, ?_, ?_, ?_⟩
  · intro hT
    rw [hd, if_pos hT]
  · intro hT hA
    have hnd : ds.Access ≠ DS_ACCESS_DIRECT := by
      rw [hA]
      exact fun h => direct_ne_proxy h.symm
    refine ⟨?_, ?_⟩
    · rw [dsMapFor_url_not_direct dsMeta ds hnd, effectiveUrl_proxy ds hA]
    · rw [hd, if_pos hT]
  · intro hT
    rw [hd, if_neg hT]
  · intro hG hM hLater
    exact descriptor_visible w c L ep i ds dsMeta hL hP hds hMeta hG hM hLater

/-- C16 at a concrete input: a `prometheus` record with id 6 behind the proxy. -/
theorem prometheus_direct_url_witness :
    ∃ dsMap,
      mapGet (dataSourcesLoop demoEnabled
        ([demoRecord 6 "prom" "prometheus" "proxy" false].take (0 + 1))).datasources "prom"
        = some dsMap ∧
      mapGet dsMap "url" = some (.str "/api/datasources/proxy/6") ∧
      mapGet dsMap "directUrl" = some (.str "http://db:8086") ∧
      ∃ settings,
        getFrontendSettingsMap (demoWorld [demoRecord 6 "prom" "prometheus" "proxy" false])
          demoContext = .ok settings ∧
        datasourcesEntry settings "prom" = some dsMap := by
  obtain ⟨dsMap, hb, _, hproxy, _, hvis⟩ := prometheus_direct_url
    (demoWorld [demoRecord 6 "prom" "prometheus" "proxy" false]) demoContext
    [demoRecord 6 "prom" "prometheus" "proxy" false] demoEnabled 0
    (demoRecord 6 "prom" "prometheus" "proxy" false) (demoPlugin "prometheus")
    rfl rfl rfl (by decide)
  exact ⟨dsMap, hb, (hproxy rfl rfl).1, (hproxy rfl rfl).2,
    hvis (by decide) (by decide) (by decide)⟩

/-- C17: name collisions are resolved last-write-wins. For every record list, if the
record at position `i` has a registered type and a name other than "-- Grafana --" and
"-- Mixed --", and no later record with a registered type has the same name (so it is
the last of the registered records sharing that name), then the `datasources` entry
under that name is the descriptor built from that record and its plugin metadata alone;
and the number of keys of `datasources` is at most the number of records plus two. -/
theorem name_collision_last_wins (w : World) (c : Context) (L : List DataSource)
    (ep : EnabledPlugins) (i : Nat) (ds : DataSource) (dsMeta : DataSourcePlugin)
    (hL : collectDataSources w c = .ok L) (hP : w.GetEnabledPlugins c.OrgId = .ok ep)
    (hds : L[i]? = some ds) (hMeta : mapGet ep.DataSources ds.Type_ = some dsMeta)
    (hG : ds.Name ≠ "-- Grafana --") (hM : ds.Name ≠ "-- Mixed --")
    (hLater : ∀ r ∈ L.drop (i + 1), r.Name = ds.Name → mapGet ep.DataSources r.Type_ = none) :
    ∃ settings m, getFrontendSettingsMap w c = .ok settings ∧
      mapGet settings "datasources" = some (.objs m) ∧
      mapGet m ds.Name = some (dsMapFor dsMeta ds) ∧
      (mapKeys m).length ≤ L.length + 2 := by
  obtain ⟨settings, hs, hd, _⟩ := getFrontendSettingsMap_ok w c L ep hL hP
  refine ⟨settings, _, hs, hd, ?_, ?_⟩
  · rw [mapGet_mapSet_ne _ _ _ _ hM, mapGet_mapSet_ne _ _ _ _ hG]
    exact loop_get_last ep L i ds dsMeta hds hMeta hLater
  · rw [mapKeys_length]
    have h1 := mapSet_length_le
      (mapSet (dataSourcesLoop ep L).datasources "-- Grafana --"
        (mapLit [("type", Atom.str "grafana"), ("name", Atom.str "-- Grafana --"),
          ("meta", Atom.dsMeta (mapGet w.DataSources "grafana"))])) "-- Mixed --"
      (mapLit [("type", Atom.str "mixed"), ("meta", Atom.dsMeta (mapGet w.DataSources "mixed"))])
    have h2 := mapSet_length_le (dataSourcesLoop ep L).datasources "-- Grafana --"
      (mapLit [("type", Atom.str "grafana"), ("name", Atom.str "-- Grafana --"),
        ("meta", Atom.dsMeta (mapGet w.DataSources "grafana"))])
    have h3 := loopFrom_length_le ep L ⟨[], "", []⟩
    simp only [List.length_nil] at h3
    unfold dataSourcesLoop at h1 h2 ⊢
    omega

/-- C17 at a concrete input: two registered records called "db"; the entry is the
second one's descriptor, with the second one's type and no field of the first. -/
theorem name_collision_last_wins_witness :
    ∃ settings m,
      getFrontendSettingsMap (demoWorld [demoRecord 1 "db" "influxdb" "direct" false,
        demoRecord 2 "db" "graphite" "proxy" false]) demoContext = .ok settings ∧
      mapGet settings "datasources" = some (.objs m) ∧
      mapGet m "db" = some (dsMapFor (demoPlugin "graphite")
        (demoRecord 2 "db" "graphite" "proxy" false)) ∧
      mapGet (dsMapFor (demoPlugin "graphite") (demoRecord 2 "db" "graphite" "proxy" false))
        "database" = none ∧
      (mapKeys m).length ≤ 2 + 2 := by
  obtain ⟨settings, m, hs, hd, he, hn⟩ := name_collision_last_wins
    (demoWorld [demoRecord 1 "db" "influxdb" "direct" false,
      demoRecord 2 "db" "graphite" "proxy" false]) demoContext
    [demoRecord 1 "db" "influxdb" "direct" false, demoRecord 2 "db" "graphite" "proxy" false]
    demoEnabled 1 (demoRecord 2 "db" "graphite" "proxy" false) (demoPlugin "graphite")
    rfl rfl rfl (by decide) (by decide) (by decide) (by decide)
  exact ⟨settings, m, hs, hd, he, by decide, hn⟩

/-- C18: order dependence is confined to default selection and name collisions. For
every record list `L` whose records with registered type have pairwise distinct names
and of which at most one record with registered type has the default flag set,
`getFrontendSettingsMap` returns the same result for every permutation `L'` of `L`. -/
theorem permutation_invariant (w : World) (c : Context) (L L' : List DataSource)
    (ep : EnabledPlugins) (hP : w.GetEnabledPlugins c.OrgId = .ok ep)
    (hNames : ((L.filter (isRegistered ep)).map (fun r => r.Name)).Nodup)
    (hDefault : (L.filter (fun r => isRegistered ep r && r.IsDefault)).length ≤ 1)
    (hPerm : L.Perm L') :
    getFrontendSettingsMap (withRecords w L) c
      = getFrontendSettingsMap (withRecords w L') c := by
  have hcomm : ∀ x ∈ L, ∀ y ∈ L, ∀ z,
      processCore ep (processCore ep z x) y = processCore ep (processCore ep z y) x := by
    intro x hx y hy z
    apply processCore_comm
    · intro hrx hry hne hnm
      have hxm : x ∈ L.filter (isRegistered ep) := List.mem_filter.mpr ⟨hx, hrx⟩
      have hym : y ∈ L.filter (isRegistered ep) := List.mem_filter.mpr ⟨hy, hry⟩
      exact hne (List.inj_on_of_nodup_map hNames hxm hym hnm)
    · intro hrx hry hne hboth
      have hxm : x ∈ L.filter (fun r => isRegistered ep r && r.IsDefault) :=
        List.mem_filter.mpr ⟨hx, by simp [hrx, hboth.1]⟩
      have hym : y ∈ L.filter (fun r => isRegistered ep r && r.IsDefault) :=
        List.mem_filter.mpr ⟨hy, by simp [hry, hboth.2]⟩
      exact hne (eq_of_mem_of_length_le_one _ hDefault x y hxm hym)
  have hfold := List.Perm.foldl_eq' hPerm hcomm (([] : GoMap (GoMap Atom)), "")
  have h1 := loopFrom_core ep L ⟨[], "", []⟩
  have h2 := loopFrom_core ep L' ⟨[], "", []⟩
  rw [hfold, ← h2] at h1
  have hd : (dataSourcesLoop ep L).datasources = (dataSourcesLoop ep L').datasources :=
    congrArg Prod.fst h1
  have hdef : (dataSourcesLoop ep L).defaultDatasource
      = (dataSourcesLoop ep L').defaultDatasource := congrArg Prod.snd h1
  exact result_of_loop_eq w c L L' ep hP hd hdef

/-- C18 at a concrete input: three records, one of them skipped, and the same records
in reverse order. -/
theorem permutation_invariant_witness :
    getFrontendSettingsMap (withRecords (demoWorld [])
        [demoRecord 1 "a" "graphite" "proxy" true, demoRecord 2 "b" "nope" "direct" true,
          demoRecord 3 "c" "influxdb" "direct" false]) demoContext
      = getFrontendSettingsMap (withRecords (demoWorld [])
        [demoRecord 3 "c" "influxdb" "direct" false, demoRecord 2 "b" "nope" "direct" true,
          demoRecord 1 "a" "graphite" "proxy" true]) demoContext :=
  permutation_invariant (demoWorld []) demoContext
    [demoRecord 1 "a" "graphite" "proxy" true, demoRecord 2 "b" "nope" "direct" true,
      demoRecord 3 "c" "influxdb" "direct" false]
    [demoRecord 3 "c" "influxdb" "direct" false, demoRecord 2 "b" "nope" "direct" true,
      demoRecord 1 "a" "graphite" "proxy" true]
    demoEnabled rfl (by decide) (by decide) (by decide)

/-- C19: whenever `getFrontendSettingsMap` succeeds, the value of `defaultDatasource` is
a key of the returned `datasources` mapping, for every record list, also with skipped
default records, records with an empty name, and records named like the synthetic
entries. -/
theorem default_is_a_datasources_key (w : World) (c : Context) (settings : GoMap Value)
    (h : getFrontendSettingsMap w c = .ok settings) :
    ∃ m d, mapGet settings "datasources" = some (.objs m) ∧
      mapGet settings "defaultDatasource" = some (.atom (.str d)) ∧ d ∈ mapKeys m := by
  obtain ⟨L, ep, hL, hP⟩ := ok_inputs w c settings h
  obtain ⟨settings', hs, hd, hdef⟩ := getFrontendSettingsMap_ok w c L ep hL hP
  rw [h] at hs
  cases hs
  refine ⟨_, _, hd, hdef, ?_⟩
  rw [← mapGet_isSome_iff]
  have hinv := loopFrom_default_is_key ep L ⟨[], "", []⟩ (Or.inl rfl)
  by_cases he : (dataSourcesLoop ep L).defaultDatasource = ""
  · simp [he, mapGet_mapSet]
  · rw [if_neg he]
    rcases hinv with h0 | h1
    · exact absurd h0 he
    · exact mapGet_mapSet_isSome _ _ _ _ (mapGet_mapSet_isSome _ _ _ _ h1)

/-- C19 at a concrete input: the only default record is skipped, another record has an
empty name, a third is named like a synthetic entry. -/
theorem default_is_a_datasources_key_witness :
    ∃ settings m d,
      getFrontendSettingsMap (demoWorld [demoRecord 1 "x" "nope" "direct" true,
        demoRecord 2 "" "graphite" "proxy" true,
        demoRecord 3 "-- Mixed --" "influxdb" "direct" false]) demoContext = .ok settings ∧
      mapGet settings "datasources" = some (.objs m) ∧
      mapGet settings "defaultDatasource" = some (.atom (.str d)) ∧ d ∈ mapKeys m := by
  obtain ⟨m, d, hm, hd, hk⟩ := default_is_a_datasources_key
    (demoWorld [demoRecord 1 "x" "nope" "direct" true, demoRecord 2 "" "graphite" "proxy" true,
      demoRecord 3 "-- Mixed --" "influxdb" "direct" false]) demoContext _ rfl
  exact ⟨_, m, d, rfl, hm, hd, hk⟩

/-- C20: the `allowOrgCreate` flag in the result of `getFrontendSettingsMap` is true if
and only if the caller is a Grafana admin, or the process-wide org-self-signup setting is
enabled and the caller is signed in; so it is true for every admin whatever the setting,
and false for every non-admin who is not signed in. -/
theorem allow_org_create_flag (w : World) (c : Context) (settings : GoMap Value)
    (h : getFrontendSettingsMap w c = .ok settings) :
    ∃ b, mapGet settings "allowOrgCreate" = some (.atom (.bool b)) ∧
      (b = true ↔ (c.IsGrafanaAdmin = true ∨
        (w.setting.AllowUserOrgCreate = true ∧ c.IsSignedIn = true))) ∧
      (c.IsGrafanaAdmin = true → b = true) ∧
      (c.IsGrafanaAdmin = false → c.IsSignedIn = false → b = false) := by
  obtain ⟨L, ep, hL, hP⟩ := ok_inputs w c settings h
  simp only [getFrontendSettingsMap, hL, hP] at h
  cases h
  refine ⟨(w.setting.AllowUserOrgCreate && c.IsSignedIn) || c.IsGrafanaAdmin, ?_, ?_, ?_, ?_⟩
  · simp [mapLit, mapGet_mapSet, mapGet_nil]
  · cases w.setting.AllowUserOrgCreate <;> cases c.IsSignedIn <;> cases c.IsGrafanaAdmin <;> simp
  · intro ha
    simp [ha]
  · intro ha hs
    simp [ha, hs]

/-- C20 at concrete inputs: an admin who is not signed in may create organizations, a
visitor who is neither may not, although self-signup is enabled. -/
theorem allow_org_create_flag_witness :
    (∃ settings, getFrontendSettingsMap (demoWorld []) ⟨1, false, true⟩ = .ok settings ∧
      mapGet settings "allowOrgCreate" = some (.atom (.bool true))) ∧
    (∃ settings, getFrontendSettingsMap (demoWorld []) ⟨1, false, false⟩ = .ok settings ∧
      mapGet settings "allowOrgCreate" = some (.atom (.bool false))) := by
  refine ⟨⟨_, rfl, ?_⟩, ⟨_, rfl, ?_⟩⟩
  · obtain ⟨b, hb, _, hadmin, _⟩ :=
      allow_org_create_flag (demoWorld []) ⟨1, false, true⟩ _ rfl
    rw [hb, hadmin rfl]
  · obtain ⟨b, hb, _, _, hanon⟩ :=
      allow_org_create_flag (demoWorld []) ⟨1, false, false⟩ _ rfl
    rw [hb, hanon rfl rfl]

end FrontendSettings
